import Mathlib

/-!
Verification development for the node-group defaulting core of
`pkg/apis/eksctl.io/v1alpha5/defaults.go`.

Modelling conventions:
* Go `map[string]T` becomes an association list `List (String × T)`;
  `lookupKV` is map read, `setKV` is map assignment (in-place replacement
  of the first binding when the key exists, append otherwise).
* Go `*bool` / `*string` (tri-state / optional) become `Option Bool` /
  `Option String`.
* Go `float64` arithmetic in the memory and storage formulas is modelled
  with exact rationals (`ℚ`); `Sprintf %.2f` becomes rounding to two
  decimals, and the shortest-representation float formatting becomes
  exact decimal expansion with trailing zeros stripped.  All quantities
  the claims touch are exactly representable, so the rational model and
  the float code agree on them.
* The EC2 `DescribeInstanceTypes` lookup (network bound, invoked once
  per reservation computation) is modelled by an environment `Env`
  giving the answer of each successive provider call; a call counter is
  threaded through the defaulting pass.
-/

set_option linter.unusedVariables false
set_option linter.unnecessarySeqFocus false

namespace Eksctl

/-- A value of a free-form configuration document (`interface{}` in Go):
either a string leaf or a nested string-keyed document. -/
inductive DocValue where
  | str : String → DocValue
  | doc : List (String × DocValue) → DocValue

/-- `InlineDocument` from the source: a free-form string-keyed document
(`map[string]interface{}`). -/
abbrev InlineDocument := List (String × DocValue)

/-- Go map read `m[k]`: first binding of `k`, if any. -/
def lookupKV {α : Type} (k : String) : List (String × α) → Option α
  | [] => none
  | (k', v) :: rest => if k' = k then some v else lookupKV k rest

/-- Go map assignment `m[k] = v`: replace the first binding of `k` in
place, or append a new binding when `k` is absent. -/
def setKV {α : Type} (k : String) (v : α) : List (String × α) → List (String × α)
  | [] => [(k, v)]
  | (k', v') :: rest => if k' = k then (k, v) :: rest else (k', v') :: setKV k v rest

/-- Modelled from the spec: tri-state flags (glossary) are Go `*bool`;
`Enabled()` yields a pointer to `true`.  Here: `some true`. -/
def Enabled : Option Bool := some true

/-- Modelled from the spec: `Disabled()` yields a pointer to `false`.
Here: `some false`. -/
def Disabled : Option Bool := some false

/-- Modelled from the spec: a tri-state flag is "enabled" when it is set
and points at `true`. -/
def IsEnabled (o : Option Bool) : Bool := o == some true

/-- Modelled from the spec: a tri-state flag is "disabled" when it is set
and points at `false`. -/
def IsDisabled (o : Option Bool) : Bool := o == some false

/-- Modelled from the spec: an optional string field is "set and
non-empty" when present and different from `""`. -/
def IsSetAndNonEmptyString (o : Option String) : Bool :=
  match o with
  | some s => s != ""
  | none => false

/-- Modelled from the spec (§4.1.1): "Count the number of non-empty key
fields (0–3)". -/
def countEnabledFields (fields : List (Option String)) : Nat :=
  (fields.filter (fun o =>
    match o with
    | some s => s != ""
    | none => false)).length

/-- `ClusterMeta`: cluster name and region (§3). -/
structure ClusterMeta where
  name : String
  region : String
deriving DecidableEq

/-- `NodeGroupSGs` as used at lines 53–63 of the source. -/
structure NodeGroupSGs where
  attachIDs : List String
  withLocal : Option Bool
  withShared : Option Bool
deriving DecidableEq

/-- `NodeGroupSSH` as used by `setSSHDefaults`. -/
structure NodeGroupSSH where
  allow : Option Bool
  publicKeyPath : Option String
  publicKeyName : Option String
  publicKey : Option String
deriving DecidableEq

/-- The ten add-on policy toggles defaulted by `setIAMDefaults`. -/
structure NodeGroupIAMAddonPolicies where
  imageBuilder : Option Bool
  autoScaler : Option Bool
  externalDNS : Option Bool
  certManager : Option Bool
  albIngress : Option Bool
  xRay : Option Bool
  cloudWatch : Option Bool
  ebs : Option Bool
  fsx : Option Bool
  efs : Option Bool
deriving DecidableEq

/-- `NodeGroupIAM` as used by `setIAMDefaults`. -/
structure NodeGroupIAM where
  withAddonPolicies : NodeGroupIAMAddonPolicies
deriving DecidableEq

/-- `NodeGroup`: the fields read or written by `SetNodeGroupDefaults`.
The struct definition itself is outside the visible source; fields and
their optionality follow the spec's data model (§3) and the source's
uses. -/
@[ext]
structure NodeGroup where
  name : String
  instanceType : String
  amiFamily : String
  instancesDistribution : Option (List String)
  securityGroups : Option NodeGroupSGs
  ssh : Option NodeGroupSSH
  volumeType : Option String
  iam : Option NodeGroupIAM
  labels : Option (List (String × String))
  kubeletExtraConfig : Option InlineDocument

/-- `ScalingConfig` (only its nil-check is exercised by the source). -/
structure ScalingConfig where
  minSize : Option Int
  maxSize : Option Int
  desiredCapacity : Option Int
deriving DecidableEq

/-- `ManagedNodeGroup`: the fields read or written by
`SetManagedNodeGroupDefaults`, plus the kubelet document field the
spec's data model (§3) gives to both node-group variants. -/
@[ext]
structure ManagedNodeGroup where
  name : String
  amiFamily : String
  instanceType : String
  scalingConfig : Option ScalingConfig
  ssh : Option NodeGroupSSH
  iam : Option NodeGroupIAM
  labels : Option (List (String × String))
  tags : Option (List (String × String))
  kubeletExtraConfig : Option InlineDocument

/-- Modelled from the spec: `HasMixedInstances` — the group declares a
mixed-instance policy with at least one instance type. -/
def HasMixedInstances (ng : NodeGroup) : Bool :=
  match ng.instancesDistribution with
  | some l => !l.isEmpty
  | none => false

/-- Modelled from the spec: fixed default instance type. -/
def DefaultNodeType : String := "m5.large"

/-- Modelled from the spec: fixed default AMI family for unmanaged groups. -/
def DefaultNodeImageFamily : String := "AmazonLinux2"

/-- Modelled from the spec: AMI family constant used for managed groups. -/
def NodeImageFamilyAmazonLinux2 : String := "AmazonLinux2"

/-- Modelled from the spec: fixed default volume type. -/
def DefaultNodeVolumeType : String := "gp2"

/-- Modelled from the spec: the non-empty default SSH public-key path. -/
def DefaultNodeSSHPublicKeyPath : String := "~/.ssh/id_rsa.pub"

/-- Modelled from the spec: fixed label key for the cluster name. -/
def ClusterNameLabel : String := "alpha.eksctl.io/cluster-name"

/-- Modelled from the spec: fixed label key for the node-group name. -/
def NodeGroupNameLabel : String := "alpha.eksctl.io/nodegroup-name"

/-- Modelled from the spec: fixed tag key for the node-group name. -/
def NodeGroupNameTag : String := "alpha.eksctl.io/nodegroup-name"

/-- Modelled from the spec: fixed tag key for the node-group type. -/
def NodeGroupTypeTag : String := "alpha.eksctl.io/nodegroup-type"

/-- Modelled from the spec: the managed node-group type tag value. -/
def NodeGroupTypeManaged : String := "managed"

/-- Modelled from the spec: `metav1.NamespaceDefault`. -/
def NamespaceDefault : String := "default"

/-- The hardware facts of `ec2.InstanceTypeInfo` consumed by the source:
default vCPU count, memory size in MiB, instance-storage support flag
and total instance-storage size in GB. -/
structure InstanceTypeInfo where
  defaultVCpus : Int
  memSizeInMiB : Int
  instanceStorageSupported : Bool
  instanceStorageTotalSizeGB : Int
deriving DecidableEq

/-- The external world: `answers n it` is the result of the `n`-th
provider call of the pass for instance type `it` (the
`DescribeInstanceTypes` round trip of `getInstanceTypeInfo`, including
session setup and the empty-result check; each call may independently
fail). -/
structure Env where
  answers : Nat → String → Except String InstanceTypeInfo

/-- `getInstanceTypeInfo` (lines 388–398): one provider call.  Session
and region handling (`getSession`, `getRegion`) and the empty-result
error are absorbed into the environment's answer. -/
def getInstanceTypeInfo (env : Env) (n : Nat) (it : String) (meta : ClusterMeta) :
    Except String InstanceTypeInfo :=
  env.answers n it

/-- `getInstanceTypeCores` (lines 287–295): the default vCPU count of
the instance type. -/
def getInstanceTypeCores (env : Env) (n : Nat) (it : String) (meta : ClusterMeta) :
    Except String Int :=
  match getInstanceTypeInfo env n it meta with
  | .error e => .error e
  | .ok info => .ok info.defaultVCpus

/-- `cpuAllocations` (lines 258–268): the exact-match vCPU → reserved
milli-cores table. -/
def cpuAllocations (cores : Int) : Option String :=
  if cores = 1 then some "60m"
  else if cores = 2 then some "100m"
  else if cores = 4 then some "140m"
  else if cores = 8 then some "180m"
  else if cores = 16 then some "260m"
  else if cores = 32 then some "420m"
  else if cores = 48 then some "580m"
  else if cores = 64 then some "740m"
  else if cores = 96 then some "1040m"
  else none

/-- `getCpuReservations` (lines 270–285): table lookup on the vCPU
count; a count absent from the table is an error. -/
def getCpuReservations (env : Env) (n : Nat) (it : String) (meta : ClusterMeta) :
    Except String String :=
  match getInstanceTypeCores env n it meta with
  | .error e => .error e
  | .ok cores =>
    match cpuAllocations cores with
    | some reservedCores => .ok reservedCores
    | none =>
      .error ("Could not find suggested core reservation for instance type: " ++ it ++ "\n")

/-- `memPercentages` (lines 303–309): progressive brackets
(upper bound in GiB, fraction of the slice). -/
def memPercentages : List (ℚ × ℚ) :=
  [(4, 0.25), (8, 0.20), (16, 0.10), (128, 0.06), (65535, 0.02)]

/-- Rounding to two decimals, modelling `fmt.Sprintf("%.2f", x)`
followed by `strconv.ParseFloat` (Go rounds the float to the nearest
two-decimal string; on the exact quantities of the claims the two
agree). -/
def roundTo2 (q : ℚ) : ℚ := (round (q * 100) : ℚ) / 100

/-- `getInstanceTypeMem` (lines 340–349): memory size in binary GiB
(MiB / 1024), rounded to two decimals. -/
def getInstanceTypeMem (env : Env) (n : Nat) (it : String) (meta : ClusterMeta) :
    Except String ℚ :=
  match getInstanceTypeInfo env n it meta with
  | .error e => .error e
  | .ok info => .ok (roundTo2 ((info.memSizeInMiB : ℚ) / 1024))

/-- The bracket-accumulation loop of `getMemReservations`
(lines 316–326): running lower bound and accumulator, stopping at the
bracket containing the total. -/
def memReserve : List (ℚ × ℚ) → ℚ → ℚ → ℚ → ℚ
  | [], _, _, reserved => reserved
  | (k, v) :: rest, instMem, lower, reserved =>
    if instMem ≤ k then reserved + v * (instMem - lower)
    else memReserve rest instMem k (reserved + v * (k - lower))

/-- Left-pad a digit string with zeros to six characters. -/
def padLeft6 (s : String) : String :=
  String.mk (List.replicate (6 - s.length) '0') ++ s

/-- Drop trailing `'0'` characters. -/
def stripTrailingZeros (s : String) : String :=
  String.mk (s.toList.reverse.dropWhile (fun c => c == '0')).reverse

/-- Digit extraction for `decimalString6` on the scaled (×1000000)
integer value. -/
def decimalString6Int (scaled : Int) : String :=
  let ip := scaled / 1000000
  let fp := scaled % 1000000
  let fpDigits := stripTrailingZeros (padLeft6 (toString fp))
  if fpDigits = "" then toString ip else toString ip ++ "." ++ fpDigits

/-- Exact decimal expansion of a nonnegative rational with at most six
decimal digits, trailing zeros stripped (no decimal point when the
fractional part is zero).  Models Go's shortest-representation
`strconv.FormatFloat(f, 'f', -1, _)` on the exactly representable
quantities the reservation formulas produce. -/
def decimalString6 (q : ℚ) : String :=
  decimalString6Int ⌊q * 1000000⌋

/-- `formatMem` (lines 332–338): minimal decimal digits, but always at
least one digit after the point, with the `"Mi"` suffix. -/
def formatMem (f : ℚ) : String :=
  let ff := decimalString6 f
  let ff := if ff.toList.contains '.' then ff else ff ++ ".0"
  ff ++ "Mi"

/-- `getMemReservations` (lines 311–329): bracket accumulation over the
instance memory in GiB, then formatting. -/
def getMemReservations (env : Env) (n : Nat) (it : String) (meta : ClusterMeta) :
    Except String String :=
  match getInstanceTypeMem env n it meta with
  | .error e => .error e
  | .ok instMem => .ok (formatMem (memReserve memPercentages instMem 0 0))

/-- `getInstanceTypeStorage` (lines 374–386): reported total
instance-storage size in GB, or the fixed default 20 GB when the
instance type does not support instance-local storage. -/
def getInstanceTypeStorage (env : Env) (n : Nat) (it : String) (meta : ClusterMeta) :
    Except String Int :=
  let defaultInstanceTypeStorage : Int := 20
  match getInstanceTypeInfo env n it meta with
  | .error e => .error e
  | .ok info =>
    if !info.instanceStorageSupported then .ok defaultInstanceTypeStorage
    else .ok info.instanceStorageTotalSizeGB

/-- `formatStorageSize` (lines 363–372): two-decimal rounding, trailing
zeros stripped, `"Gi"` suffix.  The Go `ParseFloat` re-parse of its own
`Sprintf` output cannot fail, so the error branch is dead. -/
def formatStorageSize (f : ℚ) : Except String String :=
  .ok (decimalString6 (roundTo2 f) ++ "Gi")

/-- `getEphemeralStorageReservations` (lines 351–361): the available
size clamped by `min(15, max(1, size/16))`, then formatted. -/
def getEphemeralStorageReservations (env : Env) (n : Nat) (it : String) (meta : ClusterMeta) :
    Except String String :=
  match getInstanceTypeStorage env n it meta with
  | .error e => .error e
  | .ok storageSize =>
    let larger := max 1 ((storageSize : ℚ) / 16)
    let smaller := min 15 larger
    formatStorageSize smaller

/-- The resource-type tags of the `rscParams` dispatch table
(lines 196–200). -/
inductive RscType where
  | cpu
  | memory
  | ephemeralStorage
deriving DecidableEq

/-- The `rscType` string of a table entry. -/
def rscTypeName : RscType → String
  | .cpu => "cpu"
  | .memory => "memory"
  | .ephemeralStorage => "ephemeral-storage"

/-- The `getFun` of a table entry (`getCpuReservations`,
`getMemReservations`, `getEphemeralStorageReservations`). -/
def getRscDefault (r : RscType) (env : Env) (n : Nat) (it : String) (meta : ClusterMeta) :
    Except String String :=
  match r with
  | .cpu => getCpuReservations env n it meta
  | .memory => getMemReservations env n it meta
  | .ephemeralStorage => getEphemeralStorageReservations env n it meta

/-- `rscParams` (lines 196–200): the fixed dispatch order cpu, memory,
ephemeral-storage. -/
def rscParams : List RscType := [.cpu, .memory, .ephemeralStorage]

/-- `getKubeReserved` (lines 244–250): the `"kubeReserved"` sub-map when
present and of map type, otherwise a fresh empty map (the Go type
assertion `.(map[string]interface{})`). -/
def getKubeReserved (kec : InlineDocument) : List (String × DocValue) :=
  match lookupKV "kubeReserved" kec with
  | some (.doc m) => m
  | _ => []

/-- Lines 235–238 of `setReservationDefault`: "only set kubelet
reservations for resource types that aren't already set in config". -/
def mergeReserved (resType rsrcRes : String) (kubeReserved : List (String × DocValue)) :
    List (String × DocValue) :=
  if (lookupKV resType kubeReserved).isSome then kubeReserved
  else setKV resType (.str rsrcRes) kubeReserved

/-- `setReservationDefault` (lines 225–242): compute the reservation for
one resource type and merge it into the kubelet document without
overwriting a pre-set value.  On a computation failure the node group is
returned unchanged (the Go early `return err` precedes every write). -/
def setReservationDefault (env : Env) (n : Nat) (ng : NodeGroup) (resType : String)
    (meta : ClusterMeta) (r : RscType) : Except String NodeGroup :=
  let kec := ng.kubeletExtraConfig.getD []
  match getRscDefault r env n ng.instanceType meta with
  | .error e => .error e
  | .ok rsrcRes =>
    let kubeReserved := mergeReserved resType rsrcRes (getKubeReserved kec)
    let kec := setKV "kubeReserved" (.doc kubeReserved) kec
    .ok { ng with kubeletExtraConfig := some kec }

/-- The loop of `SetKubeletExtraConfigDefaults` (lines 203–211) over the
dispatch table, threading the provider-call counter; stops at the first
failing entry, keeping the node-group state reached so far and
reporting the error. -/
def runRscParams (env : Env) (meta : ClusterMeta) :
    List RscType → Nat → NodeGroup → NodeGroup × Nat × Option String
  | [], n, ng => (ng, n, none)
  | r :: rest, n, ng =>
    match setReservationDefault env n ng (rscTypeName r) meta r with
    | .ok ng2 => runRscParams env meta rest (n + 1) ng2
    | .error e => (ng, n + 1, some e)

/-- `SetKubeletExtraConfigDefaults` (lines 203–211): run the three
reservation defaulting steps in table order, returning the mutated node
group, the updated call counter, and the first error if any. -/
def SetKubeletExtraConfigDefaults (env : Env) (n0 : Nat) (ng : NodeGroup) (meta : ClusterMeta) :
    NodeGroup × Nat × Option String :=
  runRscParams env meta rscParams n0 ng

/-- Lines 42–48: default the instance type to `"mixed"` or the fixed
default when unset (`if ng.InstanceType == "" { ng.InstanceType = … }`
written as a field assignment). -/
def defaultInstanceTypeStep (ng : NodeGroup) : NodeGroup :=
  { ng with instanceType :=
      if ng.instanceType = "" then
        (if HasMixedInstances ng then "mixed" else DefaultNodeType)
      else ng.instanceType }

/-- Lines 49–51: default the AMI family when unset. -/
def defaultAMIFamilyStep (ng : NodeGroup) : NodeGroup :=
  { ng with amiFamily :=
      if ng.amiFamily = "" then DefaultNodeImageFamily else ng.amiFamily }

/-- One flag clause of lines 58–63: `if flag == nil { flag = Enabled() }`. -/
def defaultEnabled (o : Option Bool) : Option Bool :=
  match o with
  | none => Enabled
  | some b => some b

/-- Lines 53–63 on the security-group container: create it when absent
(empty attach list, both flags unset) and default both flags to enabled
when unset. -/
def defaultSGs (o : Option NodeGroupSGs) : NodeGroupSGs :=
  let sg := o.getD { attachIDs := [], withLocal := none, withShared := none }
  { sg with withLocal := defaultEnabled sg.withLocal,
            withShared := defaultEnabled sg.withShared }

/-- Lines 53–63: the security-group defaulting step. -/
def defaultSecurityGroupsStep (ng : NodeGroup) : NodeGroup :=
  { ng with securityGroups := some (defaultSGs ng.securityGroups) }

/-- `setSSHDefaults` (lines 163–180): the SSH sub-resolution state
machine. -/
def setSSHDefaults (c : NodeGroupSSH) : NodeGroupSSH :=
  let numSSHFlagsEnabled :=
    countEnabledFields [c.publicKeyName, c.publicKeyPath, c.publicKey]
  if numSSHFlagsEnabled = 0 then
    if IsEnabled c.allow then { c with publicKeyPath := some DefaultNodeSSHPublicKeyPath }
    else { c with allow := Disabled }
  else
    if !(IsDisabled c.allow) then { c with allow := Enabled } else c

/-- The `&NodeGroupSSH{Allow: Disabled()}` literal of lines 66–68. -/
def freshNodeGroupSSH : NodeGroupSSH :=
  { allow := Disabled, publicKeyPath := none, publicKeyName := none, publicKey := none }

/-- Lines 65–71: create the SSH container (allow disabled) when absent,
then run the sub-resolution. -/
def defaultSSHStep (ng : NodeGroup) : NodeGroup :=
  { ng with ssh := some (setSSHDefaults (ng.ssh.getD freshNodeGroupSSH)) }

/-- Lines 73–75: default the volume type when unset or empty
(`if !IsSetAndNonEmptyString(ng.VolumeType) { ng.VolumeType = … }`). -/
def defaultVolumeTypeStep (ng : NodeGroup) : NodeGroup :=
  { ng with volumeType :=
      if IsSetAndNonEmptyString ng.volumeType then ng.volumeType
      else some DefaultNodeVolumeType }

/-- One clause of `setIAMDefaults`: `if toggle == nil { toggle =
Disabled() }`. -/
def defaultDisabled (o : Option Bool) : Option Bool :=
  match o with
  | none => Disabled
  | some b => some b

/-- `setIAMDefaults` (lines 130–161): each of the ten add-on policy
toggles independently defaults to disabled when unset (the Go body is
ten such `if` statements in this field order). -/
def setIAMDefaults (c : NodeGroupIAM) : NodeGroupIAM :=
  { withAddonPolicies :=
    { imageBuilder := defaultDisabled c.withAddonPolicies.imageBuilder
      autoScaler := defaultDisabled c.withAddonPolicies.autoScaler
      externalDNS := defaultDisabled c.withAddonPolicies.externalDNS
      certManager := defaultDisabled c.withAddonPolicies.certManager
      albIngress := defaultDisabled c.withAddonPolicies.albIngress
      xRay := defaultDisabled c.withAddonPolicies.xRay
      cloudWatch := defaultDisabled c.withAddonPolicies.cloudWatch
      ebs := defaultDisabled c.withAddonPolicies.ebs
      fsx := defaultDisabled c.withAddonPolicies.fsx
      efs := defaultDisabled c.withAddonPolicies.efs } }

/-- The empty `&NodeGroupIAM{}` literal of line 78. -/
def emptyNodeGroupIAM : NodeGroupIAM :=
  { withAddonPolicies :=
    { imageBuilder := none, autoScaler := none, externalDNS := none,
      certManager := none, albIngress := none, xRay := none,
      cloudWatch := none, ebs := none, fsx := none, efs := none } }

/-- Lines 77–81: create the IAM container when absent, then default the
add-on toggles. -/
def defaultIAMStep (ng : NodeGroup) : NodeGroup :=
  { ng with iam := some (setIAMDefaults (ng.iam.getD emptyNodeGroupIAM)) }

/-- `setDefaultNodeLabels` (lines 182–185): always (re)assert the
cluster-name and node-group-name entries. -/
def setDefaultNodeLabels (labels : List (String × String))
    (clusterName nodeGroupName : String) : List (String × String) :=
  setKV NodeGroupNameLabel nodeGroupName (setKV ClusterNameLabel clusterName labels)

/-- Lines 83–86: create the labels map when absent, then assert the two
default entries. -/
def defaultLabelsStep (ng : NodeGroup) (meta : ClusterMeta) : NodeGroup :=
  { ng with labels := some (setDefaultNodeLabels (ng.labels.getD []) meta.name ng.name) }

/-- Lines 88–90: create the kubelet extra-config document when absent
(`if nil { ng.KubeletExtraConfig = &InlineDocument{} }`). -/
def ensureKubeletExtraConfigStep (ng : NodeGroup) : NodeGroup :=
  { ng with kubeletExtraConfig := some (ng.kubeletExtraConfig.getD []) }

/-- Lines 42–90 of `SetNodeGroupDefaults`: every defaulting step before
the kubelet reservation pass, in source order. -/
def setNodeGroupFieldDefaults (ng : NodeGroup) (meta : ClusterMeta) : NodeGroup :=
  let ng := defaultInstanceTypeStep ng
  let ng := defaultAMIFamilyStep ng
  let ng := defaultSecurityGroupsStep ng
  let ng := defaultSSHStep ng
  let ng := defaultVolumeTypeStep ng
  let ng := defaultIAMStep ng
  let ng := defaultLabelsStep ng meta
  ensureKubeletExtraConfigStep ng

/-- `SetNodeGroupDefaults` (lines 41–93).  The Go function returns
nothing: the final statement calls `SetKubeletExtraConfigDefaults` and
discards its error result, keeping only the in-place mutations.  We
therefore return the mutated node group and the updated provider-call
counter, dropping the error component exactly as the source does. -/
def SetNodeGroupDefaults (env : Env) (n0 : Nat) (ng : NodeGroup) (meta : ClusterMeta) :
    NodeGroup × Nat :=
  let ng := setNodeGroupFieldDefaults ng meta
  let out := SetKubeletExtraConfigDefaults env n0 ng meta
  (out.1, out.2.1)

/-- `SetManagedNodeGroupDefaults` (lines 96–128): managed-group
defaulting.  It performs no provider call and never touches the kubelet
extra-config document. -/
def SetManagedNodeGroupDefaults (ng : ManagedNodeGroup) (meta : ClusterMeta) :
    ManagedNodeGroup :=
  let ami := if ng.amiFamily = "" then NodeImageFamilyAmazonLinux2 else ng.amiFamily
  let ng := { ng with amiFamily := ami }
  let it := if ng.instanceType = "" then DefaultNodeType else ng.instanceType
  let ng := { ng with instanceType := it }
  let sc := ng.scalingConfig.getD { minSize := none, maxSize := none, desiredCapacity := none }
  let ng := { ng with scalingConfig := some sc }
  let ng := { ng with ssh := some (setSSHDefaults (ng.ssh.getD freshNodeGroupSSH)) }
  let ng := { ng with iam := some (setIAMDefaults (ng.iam.getD emptyNodeGroupIAM)) }
  let ng := { ng with labels := some (setDefaultNodeLabels (ng.labels.getD []) meta.name ng.name) }
  let tags := ng.tags.getD []
  let tags := setKV NodeGroupNameTag ng.name tags
  let tags := setKV NodeGroupTypeTag NodeGroupTypeManaged tags
  { ng with tags := some tags }

/-- `ClusterIAMServiceAccount` as used at lines 26–30 (the Go field is
named `Namespace`, a Lean keyword, hence `saNamespace`). -/
structure ClusterIAMServiceAccount where
  saName : String
  saNamespace : String
deriving DecidableEq

/-- `ClusterCloudWatchLogging` with its enable-list. -/
structure ClusterCloudWatchLogging where
  enableTypes : List String
deriving DecidableEq

/-- `ClusterCloudWatch` container. -/
structure ClusterCloudWatch where
  clusterLogging : Option ClusterCloudWatchLogging
deriving DecidableEq

/-- `ClusterIAM` as used at lines 18–30. -/
structure ClusterIAM where
  withOIDC : Option Bool
  serviceAccounts : List ClusterIAMServiceAccount
deriving DecidableEq

/-- `ClusterConfig`: the fields read or written by
`SetClusterConfigDefaults`. -/
structure ClusterConfig where
  metadata : ClusterMeta
  iam : Option ClusterIAM
  cloudWatch : Option ClusterCloudWatch
deriving DecidableEq

/-- Modelled from the spec: `HasClusterCloudWatchLogging` — the cluster
has a CloudWatch container with a cluster-logging section. -/
def HasClusterCloudWatchLogging (cfg : ClusterConfig) : Bool :=
  match cfg.cloudWatch with
  | some cw => cw.clusterLogging.isSome
  | none => false

/-- Modelled from the spec: the full enumerated set of supported
CloudWatch cluster log types. -/
def SupportedCloudWatchClusterLogTypes : List String :=
  ["api", "audit", "authenticator", "controllerManager", "scheduler"]

/-- `SetClusterConfigDefaults` (lines 17–38): default the IAM container,
the OIDC tri-state and each service account's namespace, and expand a
single-element `"all"`/`"*"` logging enable-list to the full supported
set. -/
def SetClusterConfigDefaults (cfg : ClusterConfig) : ClusterConfig :=
  let iam := match cfg.iam with
    | none => { withOIDC := none, serviceAccounts := [] : ClusterIAM }
    | some i => i
  let iam := if iam.withOIDC = none then { iam with withOIDC := Disabled } else iam
  let iam := { iam with serviceAccounts := iam.serviceAccounts.map (fun sa =>
    if sa.saNamespace = "" then { sa with saNamespace := NamespaceDefault } else sa) }
  let cfg := { cfg with iam := some iam }
  if HasClusterCloudWatchLogging cfg then
    match cfg.cloudWatch with
    | some cw =>
      match cw.clusterLogging with
      | some cl =>
        match cl.enableTypes with
        | [t] =>
          if t = "all" ∨ t = "*" then
            let cl2 := { cl with enableTypes := SupportedCloudWatchClusterLogTypes }
            let cw2 := { cw with clusterLogging := some cl2 }
            { cfg with cloudWatch := some cw2 }
          else cfg
        | _ => cfg
      | none => cfg
    | none => cfg
  else cfg

/-! ### Association-list (Go map) lemmas -/

theorem lookupKV_setKV {α : Type} (a b : String) (v : α) (m : List (String × α)) :
    lookupKV a (setKV b v m) = if b = a then some v else lookupKV a m := by
  induction m with
  | nil => by_cases h : b = a <;> simp [lookupKV, setKV, h]
  | cons p rest ih =>
    obtain ⟨c, w⟩ := p
    by_cases hcb : c = b
    · subst hcb
      by_cases hca : c = a <;> simp [setKV, lookupKV, hca]
    · by_cases hca : c = a
      · subst hca
        have hba : ¬ b = c := fun h => hcb h.symm
        simp [setKV, lookupKV, hcb, hba]
      · simp [setKV, lookupKV, hcb, hca, ih]

theorem setKV_of_lookupKV {α : Type} (a : String) (v : α) (m : List (String × α))
    (h : lookupKV a m = some v) : setKV a v m = m := by
  induction m with
  | nil => simp [lookupKV] at h
  | cons p rest ih =>
    obtain ⟨c, w⟩ := p
    by_cases hca : c = a
    · subst hca
      have h' : w = v := by simpa [lookupKV] using h
      simp [setKV, h']
    · simp only [lookupKV, if_neg hca] at h
      simp [setKV, hca, ih h]

theorem lookupKV_setKV_isSome {α : Type} (a b : String) (v : α) (m : List (String × α))
    (h : (lookupKV a m).isSome) : (lookupKV a (setKV b v m)).isSome := by
  rw [lookupKV_setKV]
  by_cases hba : b = a <;> simp [hba, h]

/-! ### Evaluation helpers for the rational formatting pipeline -/

theorem floor_eq_intCast (q : ℚ) (n : Int) (h : q = (n : ℚ)) : ⌊q⌋ = n := by
  rw [h]
  exact Int.floor_intCast n

theorem roundTo2_cast (q : ℚ) (n : Int) (h : q * 100 = (n : ℚ)) :
    roundTo2 q = (n : ℚ) / 100 := by
  rw [roundTo2, h, round_intCast]

theorem decimalString6_eq (q : ℚ) (n : Int) (h : q * 1000000 = (n : ℚ)) :
    decimalString6 q = decimalString6Int n := by
  rw [decimalString6, floor_eq_intCast _ n h]

theorem formatMem_eq (q : ℚ) (n : Int) (h : q * 1000000 = (n : ℚ)) :
    formatMem q =
      (if (decimalString6Int n).toList.contains '.' then decimalString6Int n
       else decimalString6Int n ++ ".0") ++ "Mi" := by
  rw [formatMem, decimalString6_eq q n h]

theorem formatStorageSize_eq (q : ℚ) (n : Int) (h : roundTo2 q * 1000000 = (n : ℚ)) :
    formatStorageSize q = Except.ok (decimalString6Int n ++ "Gi") := by
  rw [formatStorageSize, decimalString6_eq _ n h]

/-! ### Claim C4: the CPU reservation table -/

/-- **C4** — The CPU reservation is an exact-match table lookup on the
instance type's default vCPU count, mapping 1→"60m", 2→"100m", 4→"140m",
8→"180m", 16→"260m", 32→"420m", 48→"580m", 64→"740m", 96→"1040m"; every
vCPU count outside the table (in particular 3) makes the computation
return the "no suggested core reservation" error and no value, and
vCPU count 16 yields "260m". -/
theorem cpu_reservation_table_claim :
    (cpuAllocations 1 = some "60m" ∧ cpuAllocations 2 = some "100m" ∧
     cpuAllocations 4 = some "140m" ∧ cpuAllocations 8 = some "180m" ∧
     cpuAllocations 16 = some "260m" ∧ cpuAllocations 32 = some "420m" ∧
     cpuAllocations 48 = some "580m" ∧ cpuAllocations 64 = some "740m" ∧
     cpuAllocations 96 = some "1040m") ∧
    (∀ c : Int, c ∉ ([1, 2, 4, 8, 16, 32, 48, 64, 96] : List Int) → cpuAllocations c = none) ∧
    (∀ env n it meta info, env.answers n it = Except.ok info →
      (cpuAllocations info.defaultVCpus = none →
        getCpuReservations env n it meta =
          Except.error
            ("Could not find suggested core reservation for instance type: " ++ it ++ "\n")) ∧
      (info.defaultVCpus = 16 → getCpuReservations env n it meta = Except.ok "260m") ∧
      (info.defaultVCpus = 3 →
        getCpuReservations env n it meta =
          Except.error
            ("Could not find suggested core reservation for instance type: " ++ it ++ "\n"))) := by
  refine ⟨⟨rfl, rfl, rfl, rfl, rfl, rfl, rfl, rfl, rfl⟩, ?_, ?_⟩
  · intro c hc
    simp only [List.mem_cons, List.not_mem_nil, or_false] at hc
    push_neg at hc
    obtain ⟨h1, h2, h3, h4, h5, h6, h7, h8, h9⟩ := hc
    simp [cpuAllocations, h1, h2, h3, h4, h5, h6, h7, h8, h9]
  · intro env n it meta info ha
    refine ⟨?_, ?_, ?_⟩
    · intro h
      simp [getCpuReservations, getInstanceTypeCores, getInstanceTypeInfo, ha, h]
    · intro h
      simp [getCpuReservations, getInstanceTypeCores, getInstanceTypeInfo, ha, h,
        cpuAllocations]
    · intro h
      simp [getCpuReservations, getInstanceTypeCores, getInstanceTypeInfo, ha, h,
        cpuAllocations]

/-- Witness for C4 at concrete inputs: a provider answering 16 vCPUs
yields "260m", one answering 3 vCPUs yields the table-miss error. -/
theorem cpu_reservation_table_claim_witness :
    getCpuReservations ⟨fun _ _ => Except.ok ⟨16, 6144, true, 160⟩⟩ 0 "m4.4xlarge" ⟨"c", "r"⟩ =
      Except.ok "260m" ∧
    getCpuReservations ⟨fun _ _ => Except.ok ⟨3, 6144, true, 160⟩⟩ 0 "weird" ⟨"c", "r"⟩ =
      Except.error
        ("Could not find suggested core reservation for instance type: " ++ "weird" ++ "\n") :=
  ⟨((cpu_reservation_table_claim.2.2 ⟨fun _ _ => Except.ok ⟨16, 6144, true, 160⟩⟩
      0 "m4.4xlarge" ⟨"c", "r"⟩ ⟨16, 6144, true, 160⟩ rfl).2.1 rfl),
   ((cpu_reservation_table_claim.2.2 ⟨fun _ _ => Except.ok ⟨3, 6144, true, 160⟩⟩
      0 "weird" ⟨"c", "r"⟩ ⟨3, 6144, true, 160⟩ rfl).2.2 rfl)⟩

/-! ### Claim C5: the memory reservation formula -/

/-- **C5** — The memory reservation applies the progressive-bracket
formula with brackets (4, 0.25), (8, 0.20), (16, 0.10), (128, 0.06),
(65535, 0.02) over total memory in GiB, accumulating
fraction × slice per bracket in ascending order and stopping at the
bracket containing the total; for 6 GiB the computed reservation is
0.25×4 + 0.20×2 = 1.40, formatted as "1.4Mi". -/
theorem memory_reservation_claim :
    memPercentages = [(4, 1/4), (8, 1/5), (16, 1/10), (128, 3/50), (65535, 1/50)] ∧
    memReserve memPercentages 6 0 0 = 0.25 * 4 + 0.20 * 2 ∧
    memReserve memPercentages 6 0 0 = 1.40 ∧
    formatMem (memReserve memPercentages 6 0 0) = "1.4Mi" ∧
    (∀ env n it meta info, env.answers n it = Except.ok info → info.memSizeInMiB = 6144 →
      getMemReservations env n it meta = Except.ok "1.4Mi") := by
  refine ⟨by norm_num [memPercentages], by norm_num [memPercentages, memReserve],
    by norm_num [memPercentages, memReserve], ?_, ?_⟩
  · have hv : memReserve memPercentages 6 0 0 = 7 / 5 := by
      norm_num [memPercentages, memReserve]
    rw [hv, formatMem_eq (7 / 5) 1400000 (by norm_num)]
    decide
  · intro env n it meta info ha hm
    simp only [getMemReservations, getInstanceTypeMem, getInstanceTypeInfo, ha, hm]
    have h2 : roundTo2 (((6144 : Int) : ℚ) / 1024) = (600 : ℚ) / 100 :=
      roundTo2_cast _ 600 (by norm_num)
    have hv : memReserve memPercentages ((600 : ℚ) / 100) 0 0 = 7 / 5 := by
      norm_num [memPercentages, memReserve]
    rw [h2, hv, formatMem_eq (7 / 5) 1400000 (by norm_num)]
    exact congrArg Except.ok (by decide)

/-- Witness for C5: a provider reporting 6144 MiB (6 GiB) yields the
formatted reservation "1.4Mi". -/
theorem memory_reservation_claim_witness :
    getMemReservations ⟨fun _ _ => Except.ok ⟨16, 6144, true, 160⟩⟩ 0 "m4.4xlarge" ⟨"c", "r"⟩ =
      Except.ok "1.4Mi" :=
  memory_reservation_claim.2.2.2.2 ⟨fun _ _ => Except.ok ⟨16, 6144, true, 160⟩⟩
    0 "m4.4xlarge" ⟨"c", "r"⟩ ⟨16, 6144, true, 160⟩ rfl rfl

/-! ### Claim C6: the ephemeral-storage reservation -/

/-- **C6** — The ephemeral-storage reservation equals
min(15, max(1, availableGB/16)) where availableGB is the reported total
instance-storage size in GB, or the fixed default 20 GB when the
instance type does not support instance-local storage; available 160 GB
yields "10Gi", 8 GB clamps up to "1Gi", 400 GB clamps down to "15Gi". -/
theorem ephemeral_storage_claim :
    ∀ env n it meta info, env.answers n it = Except.ok info →
      (info.instanceStorageSupported = false → getInstanceTypeStorage env n it meta = Except.ok 20) ∧
      (info.instanceStorageSupported = true →
        getInstanceTypeStorage env n it meta = Except.ok info.instanceStorageTotalSizeGB) ∧
      (∀ g : Int, getInstanceTypeStorage env n it meta = Except.ok g →
        getEphemeralStorageReservations env n it meta =
          formatStorageSize (min 15 (max 1 ((g : ℚ) / 16)))) ∧
      (info.instanceStorageSupported = true → info.instanceStorageTotalSizeGB = 160 →
        getEphemeralStorageReservations env n it meta = Except.ok "10Gi") ∧
      (info.instanceStorageSupported = true → info.instanceStorageTotalSizeGB = 8 →
        getEphemeralStorageReservations env n it meta = Except.ok "1Gi") ∧
      (info.instanceStorageSupported = true → info.instanceStorageTotalSizeGB = 400 →
        getEphemeralStorageReservations env n it meta = Except.ok "15Gi") := by
  intro env n it meta info ha
  refine ⟨?_, ?_, ?_, ?_, ?_, ?_⟩
  · intro h
    simp [getInstanceTypeStorage, getInstanceTypeInfo, ha, h]
  · intro h
    simp [getInstanceTypeStorage, getInstanceTypeInfo, ha, h]
  · intro g hg
    simp only [getEphemeralStorageReservations, hg]
  · intro h h2
    have hs : getInstanceTypeStorage env n it meta = Except.ok 160 := by
      simp [getInstanceTypeStorage, getInstanceTypeInfo, ha, h, h2]
    simp only [getEphemeralStorageReservations, hs]
    have hval : min (15 : ℚ) (max 1 (((160 : Int) : ℚ) / 16)) = 10 := by
      norm_num [min_def, max_def]
    rw [hval, formatStorageSize_eq 10 10000000
      (by rw [roundTo2_cast 10 1000 (by norm_num)]; norm_num)]
    exact congrArg Except.ok (by decide)
  · intro h h2
    have hs : getInstanceTypeStorage env n it meta = Except.ok 8 := by
      simp [getInstanceTypeStorage, getInstanceTypeInfo, ha, h, h2]
    simp only [getEphemeralStorageReservations, hs]
    have hval : min (15 : ℚ) (max 1 (((8 : Int) : ℚ) / 16)) = 1 := by
      norm_num [min_def, max_def]
    rw [hval, formatStorageSize_eq 1 1000000
      (by rw [roundTo2_cast 1 100 (by norm_num)]; norm_num)]
    exact congrArg Except.ok (by decide)
  · intro h h2
    have hs : getInstanceTypeStorage env n it meta = Except.ok 400 := by
      simp [getInstanceTypeStorage, getInstanceTypeInfo, ha, h, h2]
    simp only [getEphemeralStorageReservations, hs]
    have hval : min (15 : ℚ) (max 1 (((400 : Int) : ℚ) / 16)) = 15 := by
      norm_num [min_def, max_def]
    rw [hval, formatStorageSize_eq 15 15000000
      (by rw [roundTo2_cast 15 1500 (by norm_num)]; norm_num)]
    exact congrArg Except.ok (by decide)

/-- Witness for C6: 160 GB → "10Gi", 8 GB → "1Gi", 400 GB → "15Gi",
and an instance type without instance storage uses the 20 GB default. -/
theorem ephemeral_storage_claim_witness :
    getEphemeralStorageReservations ⟨fun _ _ => Except.ok ⟨16, 6144, true, 160⟩⟩ 0 "a" ⟨"c", "r"⟩ =
      Except.ok "10Gi" ∧
    getEphemeralStorageReservations ⟨fun _ _ => Except.ok ⟨16, 6144, true, 8⟩⟩ 0 "a" ⟨"c", "r"⟩ =
      Except.ok "1Gi" ∧
    getEphemeralStorageReservations ⟨fun _ _ => Except.ok ⟨16, 6144, true, 400⟩⟩ 0 "a" ⟨"c", "r"⟩ =
      Except.ok "15Gi" ∧
    getInstanceTypeStorage ⟨fun _ _ => Except.ok ⟨16, 6144, false, 160⟩⟩ 0 "a" ⟨"c", "r"⟩ =
      Except.ok 20 :=
  ⟨(ephemeral_storage_claim ⟨fun _ _ => Except.ok ⟨16, 6144, true, 160⟩⟩ 0 "a" ⟨"c", "r"⟩
      ⟨16, 6144, true, 160⟩ rfl).2.2.2.1 rfl rfl,
   (ephemeral_storage_claim ⟨fun _ _ => Except.ok ⟨16, 6144, true, 8⟩⟩ 0 "a" ⟨"c", "r"⟩
      ⟨16, 6144, true, 8⟩ rfl).2.2.2.2.1 rfl rfl,
   (ephemeral_storage_claim ⟨fun _ _ => Except.ok ⟨16, 6144, true, 400⟩⟩ 0 "a" ⟨"c", "r"⟩
      ⟨16, 6144, true, 400⟩ rfl).2.2.2.2.2 rfl rfl,
   (ephemeral_storage_claim ⟨fun _ _ => Except.ok ⟨16, 6144, false, 160⟩⟩ 0 "a" ⟨"c", "r"⟩
      ⟨16, 6144, false, 160⟩ rfl).1 rfl⟩

/-! ### Claim C7: the SSH sub-resolution -/

/-- **C7** — SSH sub-resolution: with no key field set and allow unset,
the result is allow=disabled with still no key field set; with no key
field set and allow=enabled, the result carries the non-empty default
key-file path; with a key field set and allow unset or enabled, the
result is allow=enabled; with a key field set and allow explicitly
disabled, allow stays disabled. -/
theorem ssh_resolution_claim : ∀ c : NodeGroupSSH,
    (countEnabledFields [c.publicKeyName, c.publicKeyPath, c.publicKey] = 0 → c.allow = none →
      (setSSHDefaults c).allow = Disabled ∧
      countEnabledFields [(setSSHDefaults c).publicKeyName, (setSSHDefaults c).publicKeyPath,
        (setSSHDefaults c).publicKey] = 0) ∧
    (countEnabledFields [c.publicKeyName, c.publicKeyPath, c.publicKey] = 0 → c.allow = Enabled →
      (setSSHDefaults c).publicKeyPath = some DefaultNodeSSHPublicKeyPath ∧
      DefaultNodeSSHPublicKeyPath ≠ "") ∧
    (countEnabledFields [c.publicKeyName, c.publicKeyPath, c.publicKey] ≠ 0 →
      (c.allow = none ∨ c.allow = Enabled) → (setSSHDefaults c).allow = Enabled) ∧
    (countEnabledFields [c.publicKeyName, c.publicKeyPath, c.publicKey] ≠ 0 →
      c.allow = Disabled → (setSSHDefaults c).allow = Disabled) := by
  intro c
  refine ⟨?_, ?_, ?_, ?_⟩
  · intro h ha
    simp [setSSHDefaults, h, ha, IsEnabled, Enabled, Disabled]
  · intro h ha
    constructor
    · simp [setSSHDefaults, h, ha, IsEnabled, Enabled]
    · simp [DefaultNodeSSHPublicKeyPath]
  · intro h ha
    rcases ha with ha | ha <;>
      simp [setSSHDefaults, h, ha, IsDisabled, Enabled, Disabled]
  · intro h ha
    simp [setSSHDefaults, h, ha, IsDisabled, Enabled, Disabled]

/-- Witness for C7: the four state-machine cases at concrete configs. -/
theorem ssh_resolution_claim_witness :
    (setSSHDefaults ⟨none, none, none, none⟩).allow = Disabled ∧
    (setSSHDefaults ⟨Enabled, none, none, none⟩).publicKeyPath =
      some DefaultNodeSSHPublicKeyPath ∧
    (setSSHDefaults ⟨none, none, some "key", none⟩).allow = Enabled ∧
    (setSSHDefaults ⟨Disabled, none, some "key", none⟩).allow = Disabled :=
  ⟨((ssh_resolution_claim ⟨none, none, none, none⟩).1 (by decide) rfl).1,
   ((ssh_resolution_claim ⟨Enabled, none, none, none⟩).2.1 (by decide) rfl).1,
   (ssh_resolution_claim ⟨none, none, some "key", none⟩).2.2.1 (by decide) (Or.inl rfl),
   (ssh_resolution_claim ⟨Disabled, none, some "key", none⟩).2.2.2 (by decide) rfl⟩

/-! ### Claim C9: cluster log-type expansion -/

/-- **C9** — Cluster-level log-type expansion triggers only for a
single-element sentinel list: exactly `["all"]` or `["*"]` is replaced
by the full enumerated set of supported log types; a list of any other
length, or a different single element, is left unchanged. -/
theorem cluster_log_expansion_claim : ∀ cfg cw cl,
    cfg.cloudWatch = some cw → cw.clusterLogging = some cl →
    ((cl.enableTypes = ["all"] ∨ cl.enableTypes = ["*"]) →
      ∃ cw2 cl2, (SetClusterConfigDefaults cfg).cloudWatch = some cw2 ∧
        cw2.clusterLogging = some cl2 ∧
        cl2.enableTypes = SupportedCloudWatchClusterLogTypes) ∧
    (cl.enableTypes.length ≠ 1 → (SetClusterConfigDefaults cfg).cloudWatch = cfg.cloudWatch) ∧
    (∀ t, cl.enableTypes = [t] → t ≠ "all" → t ≠ "*" →
      (SetClusterConfigDefaults cfg).cloudWatch = cfg.cloudWatch) := by
  intro cfg cw cl hcw hcl
  refine ⟨?_, ?_, ?_⟩
  · intro h
    rcases h with h | h <;>
      simp [SetClusterConfigDefaults, HasClusterCloudWatchLogging, hcw, hcl, h]
  · intro h
    rcases hl : cl.enableTypes with _ | ⟨t, _ | ⟨t2, r⟩⟩
    · simp [SetClusterConfigDefaults, HasClusterCloudWatchLogging, hcw, hcl, hl]
    · rw [hl] at h
      simp at h
    · simp [SetClusterConfigDefaults, HasClusterCloudWatchLogging, hcw, hcl, hl]
  · intro t hl hta hts
    simp [SetClusterConfigDefaults, HasClusterCloudWatchLogging, hcw, hcl, hl, hta, hts]

/-- Witness for C9: `["all"]` expands to the full supported set,
`["all", "api"]` is left unchanged. -/
theorem cluster_log_expansion_claim_witness :
    (∃ cw2 cl2,
      (SetClusterConfigDefaults
        ⟨⟨"c", "r"⟩, none, some ⟨some ⟨["all"]⟩⟩⟩).cloudWatch = some cw2 ∧
      cw2.clusterLogging = some cl2 ∧
      cl2.enableTypes = SupportedCloudWatchClusterLogTypes) ∧
    (SetClusterConfigDefaults
        ⟨⟨"c", "r"⟩, none, some ⟨some ⟨["all", "api"]⟩⟩⟩).cloudWatch =
      some ⟨some ⟨["all", "api"]⟩⟩ :=
  ⟨(cluster_log_expansion_claim ⟨⟨"c", "r"⟩, none, some ⟨some ⟨["all"]⟩⟩⟩
      ⟨some ⟨["all"]⟩⟩ ⟨["all"]⟩ rfl rfl).1 (Or.inl rfl),
   (cluster_log_expansion_claim ⟨⟨"c", "r"⟩, none, some ⟨some ⟨["all", "api"]⟩⟩⟩
      ⟨some ⟨["all", "api"]⟩⟩ ⟨["all", "api"]⟩ rfl rfl).2.1 (by decide)⟩

/-! ### Reservation-merge lemmas -/

theorem getKubeReserved_setKV (d : InlineDocument) (m : List (String × DocValue)) :
    getKubeReserved (setKV "kubeReserved" (DocValue.doc m) d) = m := by
  simp [getKubeReserved, lookupKV_setKV]

/-- The kubelet document produced by one successful
`setReservationDefault` step. -/
def reservedStep (resType res : String) (kec : InlineDocument) : InlineDocument :=
  setKV "kubeReserved" (DocValue.doc (mergeReserved resType res (getKubeReserved kec))) kec

theorem setReservationDefault_ok (env : Env) (n : Nat) (ng : NodeGroup) (resType : String)
    (meta : ClusterMeta) (r : RscType) (res : String)
    (h : getRscDefault r env n ng.instanceType meta = Except.ok res) :
    setReservationDefault env n ng resType meta r =
      Except.ok
        { ng with kubeletExtraConfig :=
                    some (reservedStep resType res (ng.kubeletExtraConfig.getD [])) } := by
  simp [setReservationDefault, reservedStep, h]

theorem setReservationDefault_err (env : Env) (n : Nat) (ng : NodeGroup) (resType : String)
    (meta : ClusterMeta) (r : RscType) (e : String)
    (h : getRscDefault r env n ng.instanceType meta = Except.error e) :
    setReservationDefault env n ng resType meta r = Except.error e := by
  simp [setReservationDefault, h]

theorem mergeReserved_preserves (resType res : String) (m : List (String × DocValue))
    (k : String) (v : DocValue) (h : lookupKV k m = some v) :
    lookupKV k (mergeReserved resType res m) = some v := by
  by_cases hp : (lookupKV resType m).isSome
  · simpa [mergeReserved, hp] using h
  · have hne : ¬ resType = k := by
      intro he
      subst he
      rw [h] at hp
      simp at hp
    simp [mergeReserved, hp, lookupKV_setKV, hne, h]

theorem mergeReserved_own (resType res : String) (m : List (String × DocValue)) :
    (lookupKV resType (mergeReserved resType res m)).isSome := by
  by_cases hp : (lookupKV resType m).isSome
  · simp [mergeReserved, hp]
  · simp [mergeReserved, hp, lookupKV_setKV]

theorem setReservationDefault_preserves (env : Env) (n : Nat) (ng : NodeGroup)
    (resType : String) (meta : ClusterMeta) (r : RscType) (ng2 : NodeGroup)
    (k : String) (v : DocValue)
    (hok : setReservationDefault env n ng resType meta r = Except.ok ng2)
    (hv : lookupKV k (getKubeReserved (ng.kubeletExtraConfig.getD [])) = some v) :
    lookupKV k (getKubeReserved (ng2.kubeletExtraConfig.getD [])) = some v := by
  rcases hr : getRscDefault r env n ng.instanceType meta with e | res
  · rw [setReservationDefault_err env n ng resType meta r e hr] at hok
    exact absurd hok (by simp)
  · rw [setReservationDefault_ok env n ng resType meta r res hr] at hok
    injection hok with h2
    subst h2
    simpa [reservedStep, getKubeReserved_setKV] using
      mergeReserved_preserves resType res _ k v hv

theorem setReservationDefault_preserves_isSome (env : Env) (n : Nat) (ng : NodeGroup)
    (resType : String) (meta : ClusterMeta) (r : RscType) (ng2 : NodeGroup) (k : String)
    (hok : setReservationDefault env n ng resType meta r = Except.ok ng2)
    (hv : (lookupKV k (getKubeReserved (ng.kubeletExtraConfig.getD []))).isSome) :
    (lookupKV k (getKubeReserved (ng2.kubeletExtraConfig.getD []))).isSome := by
  obtain ⟨v, hv'⟩ := Option.isSome_iff_exists.mp hv
  rw [setReservationDefault_preserves env n ng resType meta r ng2 k v hok hv']
  rfl

theorem setReservationDefault_own (env : Env) (n : Nat) (ng : NodeGroup)
    (resType : String) (meta : ClusterMeta) (r : RscType) (ng2 : NodeGroup)
    (hok : setReservationDefault env n ng resType meta r = Except.ok ng2) :
    (lookupKV resType (getKubeReserved (ng2.kubeletExtraConfig.getD []))).isSome := by
  rcases hr : getRscDefault r env n ng.instanceType meta with e | res
  · rw [setReservationDefault_err env n ng resType meta r e hr] at hok
    exact absurd hok (by simp)
  · rw [setReservationDefault_ok env n ng resType meta r res hr] at hok
    injection hok with h2
    subst h2
    simpa [reservedStep, getKubeReserved_setKV] using mergeReserved_own resType res _

/-! #### Shape of a full reservation-defaulting run

The four lemmas below characterise `SetKubeletExtraConfigDefaults`
completely, one per place the run can stop. -/

theorem getKubeReserved_reservedStep (resType res : String) (kec : InlineDocument) :
    getKubeReserved (reservedStep resType res kec) =
      mergeReserved resType res (getKubeReserved kec) := by
  simp [reservedStep, getKubeReserved_setKV]

theorem lookupKV_reservedStep (resType res : String) (kec : InlineDocument) :
    lookupKV "kubeReserved" (reservedStep resType res kec) =
      some (DocValue.doc (mergeReserved resType res (getKubeReserved kec))) := by
  simp [reservedStep, lookupKV_setKV]

theorem kubelet_run_of_ok (env : Env) (n0 : Nat) (ng : NodeGroup) (meta : ClusterMeta)
    (cv mv ev : String)
    (hc : getRscDefault RscType.cpu env n0 ng.instanceType meta = Except.ok cv)
    (hm : getRscDefault RscType.memory env (n0 + 1) ng.instanceType meta = Except.ok mv)
    (he : getRscDefault RscType.ephemeralStorage env (n0 + 1 + 1) ng.instanceType meta =
      Except.ok ev) :
    SetKubeletExtraConfigDefaults env n0 ng meta =
      ({ ng with kubeletExtraConfig := some (reservedStep "ephemeral-storage" ev
          (reservedStep "memory" mv (reservedStep "cpu" cv (ng.kubeletExtraConfig.getD [])))) },
       n0 + 1 + 1 + 1, none) := by
  have h1 := setReservationDefault_ok env n0 ng "cpu" meta RscType.cpu cv hc
  have h2 := setReservationDefault_ok env (n0 + 1) { ng with kubeletExtraConfig := some (reservedStep "cpu" cv (ng.kubeletExtraConfig.getD [])) } "memory" meta RscType.memory mv hm
  have h3 := setReservationDefault_ok env (n0 + 1 + 1) { ng with kubeletExtraConfig := some (reservedStep "memory" mv (reservedStep "cpu" cv (ng.kubeletExtraConfig.getD []))) } "ephemeral-storage" meta RscType.ephemeralStorage ev he
  simp only [SetKubeletExtraConfigDefaults, rscParams, runRscParams, rscTypeName, h1,
    Option.getD_some] at h2 ⊢
  simp only [h2, Option.getD_some] at h3 ⊢
  simp [h3]

theorem kubelet_run_of_err1 (env : Env) (n0 : Nat) (ng : NodeGroup) (meta : ClusterMeta)
    (ec : String)
    (hc : getRscDefault RscType.cpu env n0 ng.instanceType meta = Except.error ec) :
    SetKubeletExtraConfigDefaults env n0 ng meta = (ng, n0 + 1, some ec) := by
  have h1 := setReservationDefault_err env n0 ng "cpu" meta RscType.cpu ec hc
  simp [SetKubeletExtraConfigDefaults, rscParams, runRscParams, rscTypeName, h1]

theorem kubelet_run_of_err2 (env : Env) (n0 : Nat) (ng : NodeGroup) (meta : ClusterMeta)
    (cv em : String)
    (hc : getRscDefault RscType.cpu env n0 ng.instanceType meta = Except.ok cv)
    (hm : getRscDefault RscType.memory env (n0 + 1) ng.instanceType meta = Except.error em) :
    SetKubeletExtraConfigDefaults env n0 ng meta =
      ({ ng with kubeletExtraConfig := some (reservedStep "cpu" cv
          (ng.kubeletExtraConfig.getD [])) },
       n0 + 1 + 1, some em) := by
  have h1 := setReservationDefault_ok env n0 ng "cpu" meta RscType.cpu cv hc
  have h2 := setReservationDefault_err env (n0 + 1) { ng with kubeletExtraConfig := some (reservedStep "cpu" cv (ng.kubeletExtraConfig.getD [])) } "memory" meta RscType.memory em hm
  simp only [SetKubeletExtraConfigDefaults, rscParams, runRscParams, rscTypeName, h1,
    Option.getD_some] at h2 ⊢
  simp [h2]

theorem kubelet_run_of_err3 (env : Env) (n0 : Nat) (ng : NodeGroup) (meta : ClusterMeta)
    (cv mv ee : String)
    (hc : getRscDefault RscType.cpu env n0 ng.instanceType meta = Except.ok cv)
    (hm : getRscDefault RscType.memory env (n0 + 1) ng.instanceType meta = Except.ok mv)
    (he : getRscDefault RscType.ephemeralStorage env (n0 + 1 + 1) ng.instanceType meta =
      Except.error ee) :
    SetKubeletExtraConfigDefaults env n0 ng meta =
      ({ ng with kubeletExtraConfig := some (reservedStep "memory" mv
          (reservedStep "cpu" cv (ng.kubeletExtraConfig.getD []))) },
       n0 + 1 + 1 + 1, some ee) := by
  have h1 := setReservationDefault_ok env n0 ng "cpu" meta RscType.cpu cv hc
  have h2 := setReservationDefault_ok env (n0 + 1) { ng with kubeletExtraConfig := some (reservedStep "cpu" cv (ng.kubeletExtraConfig.getD [])) } "memory" meta RscType.memory mv hm
  have h3 := setReservationDefault_err env (n0 + 1 + 1) { ng with kubeletExtraConfig := some (reservedStep "memory" mv (reservedStep "cpu" cv (ng.kubeletExtraConfig.getD []))) } "ephemeral-storage" meta RscType.ephemeralStorage ee he
  simp only [SetKubeletExtraConfigDefaults, rscParams, runRscParams, rscTypeName, h1,
    Option.getD_some] at h2 ⊢
  simp only [h2, Option.getD_some] at h3 ⊢
  simp [h3]

/-- When the provider answer for a call is an error, every reservation
getter fails with that error. -/
theorem getRscDefault_err (env : Env) (n : Nat) (it : String) (meta : ClusterMeta)
    (e : String) (r : RscType) (ha : env.answers n it = Except.error e) :
    getRscDefault r env n it meta = Except.error e := by
  cases r <;>
    simp [getRscDefault, getCpuReservations, getInstanceTypeCores, getMemReservations,
      getInstanceTypeMem, getEphemeralStorageReservations, getInstanceTypeStorage,
      getInstanceTypeInfo, ha]

/-- When the provider answer is available, the memory getter always
succeeds. -/
theorem getRscDefault_memory_ok (env : Env) (n : Nat) (it : String) (meta : ClusterMeta)
    (info : InstanceTypeInfo) (ha : env.answers n it = Except.ok info) :
    getRscDefault RscType.memory env n it meta =
      Except.ok (formatMem (memReserve memPercentages
        (roundTo2 ((info.memSizeInMiB : ℚ) / 1024)) 0 0)) := by
  simp [getRscDefault, getMemReservations, getInstanceTypeMem, getInstanceTypeInfo, ha]

/-- When the provider answer is available, the ephemeral-storage getter
always succeeds. -/
theorem getRscDefault_ephemeral_ok (env : Env) (n : Nat) (it : String) (meta : ClusterMeta)
    (info : InstanceTypeInfo) (ha : env.answers n it = Except.ok info) :
    getRscDefault RscType.ephemeralStorage env n it meta =
      Except.ok (decimalString6 (roundTo2 (min 15 (max 1
        (((if !info.instanceStorageSupported then (20 : Int)
           else info.instanceStorageTotalSizeGB) : ℚ) / 16)))) ++ "Gi") := by
  rcases hb : info.instanceStorageSupported with _ | _ <;>
    simp [getRscDefault, getEphemeralStorageReservations, getInstanceTypeStorage,
      getInstanceTypeInfo, ha, hb, formatStorageSize]

/-- When the provider answer is available and the vCPU count is in the
table, the CPU getter returns the table entry. -/
theorem getRscDefault_cpu_ok (env : Env) (n : Nat) (it : String) (meta : ClusterMeta)
    (info : InstanceTypeInfo) (cv : String) (ha : env.answers n it = Except.ok info)
    (ht : cpuAllocations info.defaultVCpus = some cv) :
    getRscDefault RscType.cpu env n it meta = Except.ok cv := by
  simp [getRscDefault, getCpuReservations, getInstanceTypeCores, getInstanceTypeInfo, ha, ht]

/-- When the provider answer is available but the vCPU count is not in
the table, the CPU getter fails. -/
theorem getRscDefault_cpu_err (env : Env) (n : Nat) (it : String) (meta : ClusterMeta)
    (info : InstanceTypeInfo) (ha : env.answers n it = Except.ok info)
    (ht : cpuAllocations info.defaultVCpus = none) :
    getRscDefault RscType.cpu env n it meta =
      Except.error
        ("Could not find suggested core reservation for instance type: " ++ it ++ "\n") := by
  simp [getRscDefault, getCpuReservations, getInstanceTypeCores, getInstanceTypeInfo, ha, ht]

/-- A defaulting run that reports no error performed all three merge
steps successfully. -/
theorem kubelet_run_keys (env : Env) (n0 : Nat) (ng : NodeGroup) (meta : ClusterMeta)
    (ng2 : NodeGroup) (n2 : Nat)
    (h : SetKubeletExtraConfigDefaults env n0 ng meta = (ng2, n2, none)) :
    (lookupKV "cpu" (getKubeReserved (ng2.kubeletExtraConfig.getD []))).isSome ∧
    (lookupKV "memory" (getKubeReserved (ng2.kubeletExtraConfig.getD []))).isSome ∧
    (lookupKV "ephemeral-storage" (getKubeReserved (ng2.kubeletExtraConfig.getD []))).isSome := by
  rcases h1 : setReservationDefault env n0 ng "cpu" meta RscType.cpu with e1 | ng_1
  · simp [SetKubeletExtraConfigDefaults, rscParams, runRscParams, rscTypeName, h1] at h
  · rcases h2 : setReservationDefault env (n0 + 1) ng_1 "memory" meta RscType.memory with e2 | ng_2
    · simp [SetKubeletExtraConfigDefaults, rscParams, runRscParams, rscTypeName, h1, h2] at h
    · rcases h3 : setReservationDefault env (n0 + 1 + 1) ng_2 "ephemeral-storage" meta
          RscType.ephemeralStorage with e3 | ng_3
      · simp [SetKubeletExtraConfigDefaults, rscParams, runRscParams, rscTypeName,
          h1, h2, h3] at h
      · have hng : ng_3 = ng2 := by
          simp [SetKubeletExtraConfigDefaults, rscParams, runRscParams, rscTypeName,
            h1, h2, h3] at h
          exact h.1
        subst hng
        refine ⟨?_, ?_, ?_⟩
        · exact setReservationDefault_preserves_isSome _ _ _ _ _ _ _ _ h3
            (setReservationDefault_preserves_isSome _ _ _ _ _ _ _ _ h2
              (setReservationDefault_own _ _ _ _ _ _ _ h1))
        · exact setReservationDefault_preserves_isSome _ _ _ _ _ _ _ _ h3
            (setReservationDefault_own _ _ _ _ _ _ _ h2)
        · exact setReservationDefault_own _ _ _ _ _ _ _ h3

/-! ### Claim C8: merge non-overwrite -/

/-- **C8** — The reservation merge sets
`document["kubeReserved"][resourceType]` only when that key is absent: a
pre-set value for the resource type survives one merge step, and the
whole defaulting run, unchanged; an absent resource type receives the
computed value; top-level keys other than `"kubeReserved"`, and other
keys of the `kubeReserved` sub-map, are left untouched. -/
theorem reservation_merge_claim :
    (∀ env n ng resType meta r d v ng2,
      ng.kubeletExtraConfig = some d →
      lookupKV resType (getKubeReserved d) = some v →
      setReservationDefault env n ng resType meta r = Except.ok ng2 →
      ∃ d2, ng2.kubeletExtraConfig = some d2 ∧
        lookupKV resType (getKubeReserved d2) = some v ∧
        (∀ k, k ≠ "kubeReserved" → lookupKV k d2 = lookupKV k d) ∧
        (∀ k, lookupKV k (getKubeReserved d2) = lookupKV k (getKubeReserved d))) ∧
    (∀ env n ng resType meta r d res ng2,
      ng.kubeletExtraConfig = some d →
      lookupKV resType (getKubeReserved d) = none →
      getRscDefault r env n ng.instanceType meta = Except.ok res →
      setReservationDefault env n ng resType meta r = Except.ok ng2 →
      ∃ d2, ng2.kubeletExtraConfig = some d2 ∧
        lookupKV resType (getKubeReserved d2) = some (DocValue.str res) ∧
        (∀ k, k ≠ "kubeReserved" → lookupKV k d2 = lookupKV k d) ∧
        (∀ k, k ≠ resType →
          lookupKV k (getKubeReserved d2) = lookupKV k (getKubeReserved d))) ∧
    (∀ env n0 ng meta k v,
      lookupKV k (getKubeReserved (ng.kubeletExtraConfig.getD [])) = some v →
      lookupKV k (getKubeReserved
        (((SetKubeletExtraConfigDefaults env n0 ng meta).1).kubeletExtraConfig.getD [])) =
        some v) := by
  refine ⟨?_, ?_, ?_⟩
  · intro env n ng resType meta r d v ng2 hd hv hok
    rcases hr : getRscDefault r env n ng.instanceType meta with e | res
    · rw [setReservationDefault_err env n ng resType meta r e hr] at hok
      exact absurd hok (by simp)
    · rw [setReservationDefault_ok env n ng resType meta r res hr] at hok
      injection hok with h2
      subst h2
      refine ⟨reservedStep resType res (ng.kubeletExtraConfig.getD []), rfl, ?_, ?_, ?_⟩
      · simp [hd, getKubeReserved_reservedStep, mergeReserved, hv]
      · intro k hk
        have hk' : ¬ ("kubeReserved" = k) := fun he => hk he.symm
        simp [hd, reservedStep, lookupKV_setKV, hk']
      · intro k
        simp [hd, getKubeReserved_reservedStep, mergeReserved, hv]
  · intro env n ng resType meta r d res ng2 hd hv hr hok
    rw [setReservationDefault_ok env n ng resType meta r res hr] at hok
    injection hok with h2
    subst h2
    refine ⟨reservedStep resType res (ng.kubeletExtraConfig.getD []), rfl, ?_, ?_, ?_⟩
    · simp [hd, getKubeReserved_reservedStep, mergeReserved, hv, lookupKV_setKV]
    · intro k hk
      have hk' : ¬ ("kubeReserved" = k) := fun he => hk he.symm
      simp [hd, reservedStep, lookupKV_setKV, hk']
    · intro k hk
      have hk' : ¬ (resType = k) := fun he => hk he.symm
      simp [hd, getKubeReserved_reservedStep, mergeReserved, hv, lookupKV_setKV, hk']
  · intro env n0 ng meta k v hv
    rcases h1 : setReservationDefault env n0 ng "cpu" meta RscType.cpu with e1 | ng_1
    · simpa [SetKubeletExtraConfigDefaults, rscParams, runRscParams, rscTypeName, h1] using hv
    · have hv1 := setReservationDefault_preserves _ _ _ _ _ _ _ _ _ h1 hv
      rcases h2 : setReservationDefault env (n0 + 1) ng_1 "memory" meta RscType.memory
          with e2 | ng_2
      · simpa [SetKubeletExtraConfigDefaults, rscParams, runRscParams, rscTypeName,
          h1, h2] using hv1
      · have hv2 := setReservationDefault_preserves _ _ _ _ _ _ _ _ _ h2 hv1
        rcases h3 : setReservationDefault env (n0 + 1 + 1) ng_2 "ephemeral-storage" meta
            RscType.ephemeralStorage with e3 | ng_3
        · simpa [SetKubeletExtraConfigDefaults, rscParams, runRscParams, rscTypeName,
            h1, h2, h3] using hv2
        · have hv3 := setReservationDefault_preserves _ _ _ _ _ _ _ _ _ h3 hv2
          simpa [SetKubeletExtraConfigDefaults, rscParams, runRscParams, rscTypeName,
            h1, h2, h3] using hv3

/-- Witness for C8: a caller-pre-set `kubeReserved.memory = "500Mi"`
survives a full defaulting run with a live provider. -/
theorem reservation_merge_claim_witness :
    lookupKV "memory" (getKubeReserved
      (((SetKubeletExtraConfigDefaults ⟨fun _ _ => Except.ok ⟨2, 4096, false, 0⟩⟩ 0
          ⟨"n", "t", "a", none, none, none, none, none, none,
            some [("kubeReserved", DocValue.doc [("memory", DocValue.str "500Mi")])]⟩
          ⟨"c", "r"⟩).1).kubeletExtraConfig.getD [])) = some (DocValue.str "500Mi") :=
  reservation_merge_claim.2.2 ⟨fun _ _ => Except.ok ⟨2, 4096, false, 0⟩⟩ 0
    ⟨"n", "t", "a", none, none, none, none, none, none,
      some [("kubeReserved", DocValue.doc [("memory", DocValue.str "500Mi")])]⟩
    ⟨"c", "r"⟩ "memory" (DocValue.str "500Mi") rfl

/-! ### Claim C10: a mistyped kubeReserved value is discarded -/

/-- **C10** — When the kubelet document's `"kubeReserved"` key holds a
value that is not a string-keyed map, the merge discards it: the
type-assertion accessor returns a fresh empty map, and after a
successful defaulting run the key holds a newly created map containing
exactly the three computed reservation entries. -/
theorem mistyped_kubeReserved_claim :
    (∀ (d : InlineDocument) (s : String),
      lookupKV "kubeReserved" d = some (DocValue.str s) → getKubeReserved d = []) ∧
    (∀ env n0 ng meta d s ng2 n2,
      ng.kubeletExtraConfig = some d →
      lookupKV "kubeReserved" d = some (DocValue.str s) →
      SetKubeletExtraConfigDefaults env n0 ng meta = (ng2, n2, none) →
      ∃ cv mv ev,
        getRscDefault RscType.cpu env n0 ng.instanceType meta = Except.ok cv ∧
        getRscDefault RscType.memory env (n0 + 1) ng.instanceType meta = Except.ok mv ∧
        getRscDefault RscType.ephemeralStorage env (n0 + 1 + 1) ng.instanceType meta =
          Except.ok ev ∧
        ∃ d2, ng2.kubeletExtraConfig = some d2 ∧
          lookupKV "kubeReserved" d2 = some (DocValue.doc
            [("cpu", DocValue.str cv), ("memory", DocValue.str mv),
             ("ephemeral-storage", DocValue.str ev)])) := by
  constructor
  · intro d s h
    simp [getKubeReserved, h]
  · intro env n0 ng meta d s ng2 n2 hd hmis hrun
    have hm0 : getKubeReserved d = [] := by simp [getKubeReserved, hmis]
    rcases hc : getRscDefault RscType.cpu env n0 ng.instanceType meta with ec | cv
    · rw [kubelet_run_of_err1 env n0 ng meta ec hc] at hrun
      simp at hrun
    · rcases hm : getRscDefault RscType.memory env (n0 + 1) ng.instanceType meta with em | mv
      · rw [kubelet_run_of_err2 env n0 ng meta cv em hc hm] at hrun
        simp at hrun
      · rcases he : getRscDefault RscType.ephemeralStorage env (n0 + 1 + 1) ng.instanceType meta
            with ee | ev
        · rw [kubelet_run_of_err3 env n0 ng meta cv mv ee hc hm he] at hrun
          simp at hrun
        · rw [kubelet_run_of_ok env n0 ng meta cv mv ev hc hm he] at hrun
          simp only [Prod.mk.injEq] at hrun
          obtain ⟨hng, _⟩ := hrun
          refine ⟨cv, mv, ev, rfl, rfl, rfl, ?_⟩
          rw [← hng]
          refine ⟨_, rfl, ?_⟩
          simp [hd, lookupKV_reservedStep, getKubeReserved_reservedStep, hm0,
            mergeReserved, lookupKV, setKV]

/-- Witness for C10: with `kubeReserved` pre-set to the string "oops"
and a live provider, the run replaces it by the three computed
entries. -/
theorem mistyped_kubeReserved_claim_witness :
    ∃ cv mv ev,
      getRscDefault RscType.cpu ⟨fun _ _ => Except.ok ⟨2, 4096, false, 0⟩⟩ 0 "t" ⟨"c", "r"⟩ =
        Except.ok cv ∧
      getRscDefault RscType.memory ⟨fun _ _ => Except.ok ⟨2, 4096, false, 0⟩⟩ 1 "t" ⟨"c", "r"⟩ =
        Except.ok mv ∧
      getRscDefault RscType.ephemeralStorage ⟨fun _ _ => Except.ok ⟨2, 4096, false, 0⟩⟩ 2 "t"
        ⟨"c", "r"⟩ = Except.ok ev ∧
      ∃ d2,
        ((SetKubeletExtraConfigDefaults ⟨fun _ _ => Except.ok ⟨2, 4096, false, 0⟩⟩ 0
          ⟨"n", "t", "a", none, none, none, none, none, none,
            some [("kubeReserved", DocValue.str "oops")]⟩
          ⟨"c", "r"⟩).1).kubeletExtraConfig = some d2 ∧
        lookupKV "kubeReserved" d2 = some (DocValue.doc
          [("cpu", DocValue.str cv), ("memory", DocValue.str mv),
           ("ephemeral-storage", DocValue.str ev)]) :=
  mistyped_kubeReserved_claim.2 ⟨fun _ _ => Except.ok ⟨2, 4096, false, 0⟩⟩ 0
    ⟨"n", "t", "a", none, none, none, none, none, none,
      some [("kubeReserved", DocValue.str "oops")]⟩
    ⟨"c", "r"⟩ [("kubeReserved", DocValue.str "oops")] "oops" _ _ rfl rfl rfl

/-! ### Claim C2: presence of the three kubeReserved keys -/

/-- Counterexample to **C2**: `SetManagedNodeGroupDefaults` completes
without error on a managed node group with an empty kubelet document and
no pre-populated keys, yet afterwards the document still has no
`"kubeReserved"` sub-map at all (so none of cpu / memory /
ephemeral-storage is present). -/
theorem kubeReserved_keys_counterexample :
    (SetManagedNodeGroupDefaults
        ⟨"n", "", "", none, none, none, none, none, some []⟩ ⟨"c", "r"⟩).kubeletExtraConfig =
      some ([] : InlineDocument) ∧
    lookupKV "kubeReserved" ([] : InlineDocument) = none :=
  ⟨rfl, rfl⟩

/-- **C2** (amended) — For unmanaged node groups, whenever the
reservation pass reports no error, the kubelet document's kubeReserved
sub-map afterwards contains at least the keys cpu, memory and
ephemeral-storage; `SetManagedNodeGroupDefaults`, however, never touches
the kubelet document, so managed node groups get no such keys. -/
theorem kubeReserved_keys_amended_claim :
    (∀ env n0 ng meta ng2 n2,
      SetKubeletExtraConfigDefaults env n0 (setNodeGroupFieldDefaults ng meta) meta =
        (ng2, n2, none) →
      (SetNodeGroupDefaults env n0 ng meta).1 = ng2 ∧
      (lookupKV "cpu" (getKubeReserved (ng2.kubeletExtraConfig.getD []))).isSome ∧
      (lookupKV "memory" (getKubeReserved (ng2.kubeletExtraConfig.getD []))).isSome ∧
      (lookupKV "ephemeral-storage" (getKubeReserved (ng2.kubeletExtraConfig.getD []))).isSome) ∧
    (∀ (mng : ManagedNodeGroup) (meta : ClusterMeta),
      (SetManagedNodeGroupDefaults mng meta).kubeletExtraConfig = mng.kubeletExtraConfig) := by
  constructor
  · intro env n0 ng meta ng2 n2 h
    refine ⟨by simp [SetNodeGroupDefaults, h], ?_, ?_, ?_⟩
    · exact (kubelet_run_keys env n0 _ meta ng2 n2 h).1
    · exact (kubelet_run_keys env n0 _ meta ng2 n2 h).2.1
    · exact (kubelet_run_keys env n0 _ meta ng2 n2 h).2.2
  · intro mng meta
    rfl

/-- Witness for the amended C2: after a full successful run on a fresh
unmanaged node group, the cpu key is present. -/
theorem kubeReserved_keys_amended_claim_witness :
    (lookupKV "cpu" (getKubeReserved
      ((((SetKubeletExtraConfigDefaults ⟨fun _ _ => Except.ok ⟨2, 4096, false, 0⟩⟩ 0
        (setNodeGroupFieldDefaults
          ⟨"n", "", "", none, none, none, none, none, none, none⟩ ⟨"c", "r"⟩)
        ⟨"c", "r"⟩).1).kubeletExtraConfig).getD []))).isSome :=
  (kubeReserved_keys_amended_claim.1 ⟨fun _ _ => Except.ok ⟨2, 4096, false, 0⟩⟩ 0
    ⟨"n", "", "", none, none, none, none, none, none, none⟩ ⟨"c", "r"⟩ _ _ rfl).2.1

/-! ### Claim C1: failure propagation -/

/-- Counterexample to **C1**: with a provider that answers the first
call and fails the second, the defaulting run fails (the memory step
errors) — yet the cpu reservation computed by the first step is already
in the kubelet document, so a failing run does leave partial
reservation results; and `SetNodeGroupDefaults` — which returns nothing
— completes normally on the same input, so the failure is not surfaced
to its caller. -/
theorem reservation_failfast_counterexample :
    (SetKubeletExtraConfigDefaults
        ⟨fun n _ => if n = 0 then Except.ok ⟨2, 4096, false, 0⟩
                    else Except.error "provider unavailable"⟩ 0
        ⟨"n", "t", "a", none, none, none, none, none, none, some []⟩ ⟨"c", "r"⟩).2.2 =
      some "provider unavailable" ∧
    lookupKV "cpu" (getKubeReserved
      (((SetKubeletExtraConfigDefaults
          ⟨fun n _ => if n = 0 then Except.ok ⟨2, 4096, false, 0⟩
                      else Except.error "provider unavailable"⟩ 0
          ⟨"n", "t", "a", none, none, none, none, none, none, some []⟩
          ⟨"c", "r"⟩).1).kubeletExtraConfig.getD [])) = some (DocValue.str "100m") ∧
    (SetNodeGroupDefaults
        ⟨fun n _ => if n = 0 then Except.ok ⟨2, 4096, false, 0⟩
                    else Except.error "provider unavailable"⟩ 0
        ⟨"n", "t", "a", none, none, none, none, none, none, some []⟩ ⟨"c", "r"⟩).2 = 2 :=
  ⟨rfl, rfl, rfl⟩

/-- **C1** (amended) — The three reservation computations do fail
immediately on any sub-step failure, and `SetKubeletExtraConfigDefaults`
stops at the first failing resource type, performing no write for it and
returning the error; but `SetNodeGroupDefaults` has no error return: it
keeps the mutations and drops the error component, and reservation
entries already written for earlier resource types remain in the
kubelet document. -/
theorem reservation_failfast_amended_claim :
    (∀ env n it meta e (r : RscType), env.answers n it = Except.error e →
      getRscDefault r env n it meta = Except.error e) ∧
    (∀ env n0 ng meta ec,
      getRscDefault RscType.cpu env n0 ng.instanceType meta = Except.error ec →
      SetKubeletExtraConfigDefaults env n0 ng meta = (ng, n0 + 1, some ec)) ∧
    (∀ env n0 ng meta cv em,
      getRscDefault RscType.cpu env n0 ng.instanceType meta = Except.ok cv →
      getRscDefault RscType.memory env (n0 + 1) ng.instanceType meta = Except.error em →
      SetKubeletExtraConfigDefaults env n0 ng meta =
        ({ ng with kubeletExtraConfig := some (reservedStep "cpu" cv
            (ng.kubeletExtraConfig.getD [])) },
         n0 + 1 + 1, some em)) ∧
    (∀ env n0 ng meta,
      SetNodeGroupDefaults env n0 ng meta =
        ((SetKubeletExtraConfigDefaults env n0 (setNodeGroupFieldDefaults ng meta) meta).1,
         (SetKubeletExtraConfigDefaults env n0 (setNodeGroupFieldDefaults ng meta) meta).2.1)) :=
  ⟨fun env n it meta e r ha => getRscDefault_err env n it meta e r ha,
   fun env n0 ng meta ec hc => kubelet_run_of_err1 env n0 ng meta ec hc,
   fun env n0 ng meta cv em hc hm => kubelet_run_of_err2 env n0 ng meta cv em hc hm,
   fun env n0 ng meta => rfl⟩

/-- Witness for the amended C1: a provider that always fails makes the
run stop after one call with the error and no document change. -/
theorem reservation_failfast_amended_claim_witness :
    SetKubeletExtraConfigDefaults ⟨fun _ _ => Except.error "boom"⟩ 0
      ⟨"n", "t", "a", none, none, none, none, none, none, some []⟩ ⟨"c", "r"⟩ =
      (⟨"n", "t", "a", none, none, none, none, none, none, some []⟩, 1, some "boom") :=
  reservation_failfast_amended_claim.2.1 ⟨fun _ _ => Except.error "boom"⟩ 0
    ⟨"n", "t", "a", none, none, none, none, none, none, some []⟩ ⟨"c", "r"⟩ "boom" rfl

/-! ### Claim C3: idempotence — per-step lemmas -/

theorem defaultEnabled_idem (o : Option Bool) :
    defaultEnabled (defaultEnabled o) = defaultEnabled o := by
  cases o <;> rfl

theorem defaultDisabled_idem (o : Option Bool) :
    defaultDisabled (defaultDisabled o) = defaultDisabled o := by
  cases o <;> rfl

theorem setIAMDefaults_idem (c : NodeGroupIAM) :
    setIAMDefaults (setIAMDefaults c) = setIAMDefaults c := by
  simp [setIAMDefaults, defaultDisabled_idem]

theorem defaultSGs_idem (o : Option NodeGroupSGs) :
    defaultSGs (some (defaultSGs o)) = defaultSGs o := by
  simp [defaultSGs, defaultEnabled_idem]

theorem setDefaultNodeLabels_idem (l : List (String × String)) (cn nn : String) :
    setDefaultNodeLabels (setDefaultNodeLabels l cn nn) cn nn =
      setDefaultNodeLabels l cn nn := by
  have hne : ¬ (NodeGroupNameLabel = ClusterNameLabel) := by decide
  have h1 : lookupKV ClusterNameLabel
      (setKV NodeGroupNameLabel nn (setKV ClusterNameLabel cn l)) = some cn := by
    rw [lookupKV_setKV, if_neg hne, lookupKV_setKV, if_pos rfl]
  have h2 : lookupKV NodeGroupNameLabel
      (setKV NodeGroupNameLabel nn (setKV ClusterNameLabel cn l)) = some nn := by
    rw [lookupKV_setKV, if_pos rfl]
  unfold setDefaultNodeLabels
  rw [setKV_of_lookupKV _ _ _ h1, setKV_of_lookupKV _ _ _ h2]

/-- The active-field predicate of `countEnabledFields`, named for the
idempotence proofs. -/
def sshFieldActive (o : Option String) : Bool :=
  match o with
  | some s => s != ""
  | none => false

theorem countEnabledFields_eq (fields : List (Option String)) :
    countEnabledFields fields = (fields.filter sshFieldActive).length := rfl

theorem countEnabledFields_zero (a b c : Option String)
    (h : countEnabledFields [a, b, c] = 0) :
    sshFieldActive a = false ∧ sshFieldActive b = false ∧ sshFieldActive c = false := by
  rw [countEnabledFields_eq] at h
  rcases ha : sshFieldActive a <;> rcases hb : sshFieldActive b <;>
    rcases hc : sshFieldActive c <;>
      simp [List.filter, ha, hb, hc] at h <;> simp_all

theorem setSSHDefaults_idem (c : NodeGroupSSH) :
    setSSHDefaults (setSSHDefaults c) = setSSHDefaults c := by
  obtain ⟨a, pp, pn, pk⟩ := c
  by_cases h0 : countEnabledFields [pn, pp, pk] = 0
  · by_cases hen : IsEnabled a
    · have ha : a = some true := by simpa [IsEnabled] using hen
      subst ha
      have hc1 : setSSHDefaults ⟨some true, pp, pn, pk⟩ =
          ⟨some true, some DefaultNodeSSHPublicKeyPath, pn, pk⟩ := by
        simp [setSSHDefaults, h0, IsEnabled]
      rw [hc1]
      obtain ⟨hn, hp, hk⟩ := countEnabledFields_zero pn pp pk h0
      have hD : sshFieldActive (some DefaultNodeSSHPublicKeyPath) = true := by decide
      have hcount : countEnabledFields [pn, some DefaultNodeSSHPublicKeyPath, pk] ≠ 0 := by
        rw [countEnabledFields_eq]
        simp [List.filter_cons, hn, hk, hD]
      simp [setSSHDefaults, hcount, IsDisabled, Enabled]
    · have hc1 : setSSHDefaults ⟨a, pp, pn, pk⟩ = ⟨Disabled, pp, pn, pk⟩ := by
        simp [setSSHDefaults, h0, hen]
      rw [hc1]
      simp [setSSHDefaults, h0, IsEnabled, Disabled]
  · by_cases hdis : IsDisabled a
    · have ha : a = some false := by simpa [IsDisabled] using hdis
      subst ha
      have hc1 : setSSHDefaults ⟨some false, pp, pn, pk⟩ = ⟨some false, pp, pn, pk⟩ := by
        simp [setSSHDefaults, h0, IsDisabled]
      rw [hc1, hc1]
    · have hc1 : setSSHDefaults ⟨a, pp, pn, pk⟩ = ⟨Enabled, pp, pn, pk⟩ := by
        simp [setSSHDefaults, h0, hdis]
      rw [hc1]
      simp [setSSHDefaults, h0, IsDisabled, Enabled]

/-- Normal form of the non-reservation defaulting steps: each field of
the output in terms of the input's fields. -/
theorem fieldDefaults_eq (ng : NodeGroup) (meta : ClusterMeta) :
    setNodeGroupFieldDefaults ng meta =
      { name := ng.name,
        instanceType :=
          if ng.instanceType = "" then
            (if HasMixedInstances ng then "mixed" else DefaultNodeType)
          else ng.instanceType,
        amiFamily := if ng.amiFamily = "" then DefaultNodeImageFamily else ng.amiFamily,
        instancesDistribution := ng.instancesDistribution,
        securityGroups := some (defaultSGs ng.securityGroups),
        ssh := some (setSSHDefaults (ng.ssh.getD freshNodeGroupSSH)),
        volumeType :=
          if IsSetAndNonEmptyString ng.volumeType then ng.volumeType
          else some DefaultNodeVolumeType,
        iam := some (setIAMDefaults (ng.iam.getD emptyNodeGroupIAM)),
        labels := some (setDefaultNodeLabels (ng.labels.getD []) meta.name ng.name),
        kubeletExtraConfig := some (ng.kubeletExtraConfig.getD []) } := rfl

/-- Applying the non-reservation steps to their own output (with the
kubelet document possibly rewritten by the reservation pass, but still
present) changes nothing. -/
theorem fieldDefaults_after (ng : NodeGroup) (meta : ClusterMeta) (kd : Option InlineDocument)
    (hk : kd.isSome) :
    setNodeGroupFieldDefaults
      { setNodeGroupFieldDefaults ng meta with kubeletExtraConfig := kd } meta =
      { setNodeGroupFieldDefaults ng meta with kubeletExtraConfig := kd } := by
  obtain ⟨d, rfl⟩ := Option.isSome_iff_exists.mp hk
  rw [fieldDefaults_eq ng meta, fieldDefaults_eq]
  simp only [NodeGroup.mk.injEq]
  refine ⟨trivial, ?_, ?_, trivial, ?_, ?_, ?_, ?_, ?_, rfl⟩
  · by_cases h : ng.instanceType = ""
    · by_cases hm : HasMixedInstances ng <;> simp [h, hm, DefaultNodeType]
    · simp [h]
  · by_cases h : ng.amiFamily = "" <;> simp [h, DefaultNodeImageFamily]
  · simp [defaultSGs_idem]
  · simp [setSSHDefaults_idem]
  · rcases hv : ng.volumeType with _ | sv
    · simp [IsSetAndNonEmptyString, DefaultNodeVolumeType]
    · by_cases hs : sv = ""
      · subst hs
        simp [IsSetAndNonEmptyString, DefaultNodeVolumeType]
      · simp [IsSetAndNonEmptyString, hs]
  · simp [setIAMDefaults_idem]
  · simp [setDefaultNodeLabels_idem]

theorem mergeReserved_preserves_isSome (resType res : String) (m : List (String × DocValue))
    (k : String) (h : (lookupKV k m).isSome) :
    (lookupKV k (mergeReserved resType res m)).isSome := by
  obtain ⟨v, hv⟩ := Option.isSome_iff_exists.mp h
  rw [mergeReserved_preserves resType res m k v hv]
  rfl

/-- A merge step whose resource type is already present in the
`kubeReserved` sub-map leaves the document unchanged. -/
theorem reservedStep_noop (rt res : String) (kec : InlineDocument)
    (m : List (String × DocValue))
    (hk : lookupKV "kubeReserved" kec = some (DocValue.doc m))
    (hp : (lookupKV rt m).isSome) :
    reservedStep rt res kec = kec := by
  have hm : getKubeReserved kec = m := by simp [getKubeReserved, hk]
  unfold reservedStep
  rw [hm]
  have hmr : mergeReserved rt res m = m := by simp [mergeReserved, hp]
  rw [hmr]
  exact setKV_of_lookupKV _ _ _ hk

/-- A second full round of the three merge steps over an
already-reserved document is the identity. -/
theorem reservedChain_noop (cv mv ev cv2 mv2 ev2 : String) (kec0 : InlineDocument) :
    reservedStep "ephemeral-storage" ev2 (reservedStep "memory" mv2 (reservedStep "cpu" cv2
      (reservedStep "ephemeral-storage" ev (reservedStep "memory" mv
        (reservedStep "cpu" cv kec0))))) =
    reservedStep "ephemeral-storage" ev (reservedStep "memory" mv
      (reservedStep "cpu" cv kec0)) := by
  have hk3 : lookupKV "kubeReserved"
      (reservedStep "ephemeral-storage" ev (reservedStep "memory" mv
        (reservedStep "cpu" cv kec0))) =
      some (DocValue.doc (mergeReserved "ephemeral-storage" ev (mergeReserved "memory" mv
        (mergeReserved "cpu" cv (getKubeReserved kec0))))) := by
    rw [lookupKV_reservedStep, getKubeReserved_reservedStep, getKubeReserved_reservedStep]
  have hcpu : (lookupKV "cpu" (mergeReserved "ephemeral-storage" ev (mergeReserved "memory" mv
      (mergeReserved "cpu" cv (getKubeReserved kec0))))).isSome :=
    mergeReserved_preserves_isSome _ _ _ _
      (mergeReserved_preserves_isSome _ _ _ _ (mergeReserved_own _ _ _))
  have hmem : (lookupKV "memory" (mergeReserved "ephemeral-storage" ev
      (mergeReserved "memory" mv (mergeReserved "cpu" cv (getKubeReserved kec0))))).isSome :=
    mergeReserved_preserves_isSome _ _ _ _ (mergeReserved_own _ _ _)
  have heph : (lookupKV "ephemeral-storage" (mergeReserved "ephemeral-storage" ev
      (mergeReserved "memory" mv (mergeReserved "cpu" cv (getKubeReserved kec0))))).isSome :=
    mergeReserved_own _ _ _
  rw [reservedStep_noop "cpu" cv2 _ _ hk3 hcpu,
    reservedStep_noop "memory" mv2 _ _ hk3 hmem,
    reservedStep_noop "ephemeral-storage" ev2 _ _ hk3 heph]

/-- Normal form of `SetManagedNodeGroupDefaults`: each field of the
output in terms of the input's fields. -/
theorem managedDefaults_eq (g : ManagedNodeGroup) (meta : ClusterMeta) :
    SetManagedNodeGroupDefaults g meta =
      { name := g.name,
        amiFamily := if g.amiFamily = "" then NodeImageFamilyAmazonLinux2 else g.amiFamily,
        instanceType := if g.instanceType = "" then DefaultNodeType else g.instanceType,
        scalingConfig := some (g.scalingConfig.getD { minSize := none, maxSize := none, desiredCapacity := none }),
        ssh := some (setSSHDefaults (g.ssh.getD freshNodeGroupSSH)),
        iam := some (setIAMDefaults (g.iam.getD emptyNodeGroupIAM)),
        labels := some (setDefaultNodeLabels (g.labels.getD []) meta.name g.name),
        tags := some (setKV NodeGroupTypeTag NodeGroupTypeManaged
          (setKV NodeGroupNameTag g.name (g.tags.getD []))),
        kubeletExtraConfig := g.kubeletExtraConfig } := rfl

theorem SetManagedNodeGroupDefaults_idem (g : ManagedNodeGroup) (meta : ClusterMeta) :
    SetManagedNodeGroupDefaults (SetManagedNodeGroupDefaults g meta) meta =
      SetManagedNodeGroupDefaults g meta := by
  rw [managedDefaults_eq g meta, managedDefaults_eq]
  simp only [ManagedNodeGroup.mk.injEq]
  refine ⟨trivial, ?_, ?_, ?_, ?_, ?_, ?_, ?_, trivial⟩
  · by_cases h : g.amiFamily = "" <;> simp [h, NodeImageFamilyAmazonLinux2]
  · by_cases h : g.instanceType = "" <;> simp [h, DefaultNodeType]
  · rfl
  · simp [setSSHDefaults_idem]
  · simp [setIAMDefaults_idem]
  · simp [setDefaultNodeLabels_idem]
  · have hNT : ¬ (NodeGroupTypeTag = NodeGroupNameTag) := by decide
    have h1 : lookupKV NodeGroupNameTag (setKV NodeGroupTypeTag NodeGroupTypeManaged
        (setKV NodeGroupNameTag g.name (g.tags.getD []))) = some g.name := by
      rw [lookupKV_setKV, if_neg hNT, lookupKV_setKV, if_pos rfl]
    have h2 : lookupKV NodeGroupTypeTag (setKV NodeGroupTypeTag NodeGroupTypeManaged
        (setKV NodeGroupNameTag g.name (g.tags.getD []))) = some NodeGroupTypeManaged := by
      rw [lookupKV_setKV, if_pos rfl]
    simp only [Option.getD_some]
    rw [setKV_of_lookupKV _ _ _ h1, setKV_of_lookupKV _ _ _ h2]

/-- `SetNodeGroupDefaults` unfolded: field defaulting, then the
reservation pass with the error dropped. -/
theorem SetNodeGroupDefaults_eq (env : Env) (n0 : Nat) (ng : NodeGroup) (meta : ClusterMeta) :
    SetNodeGroupDefaults env n0 ng meta =
      ((SetKubeletExtraConfigDefaults env n0 (setNodeGroupFieldDefaults ng meta) meta).1,
       (SetKubeletExtraConfigDefaults env n0 (setNodeGroupFieldDefaults ng meta) meta).2.1) := rfl

/-- Running the reservation pass a second time over the node group a
fully successful first pass produced changes nothing. -/
theorem kubelet_run_twice_ok (env : Env) (n0 n1 : Nat) (y : NodeGroup) (meta : ClusterMeta)
    (cv mv ev cv2 mv2 ev2 : String)
    (hc1 : getRscDefault RscType.cpu env n0 y.instanceType meta = Except.ok cv)
    (hm1 : getRscDefault RscType.memory env (n0 + 1) y.instanceType meta = Except.ok mv)
    (he1 : getRscDefault RscType.ephemeralStorage env (n0 + 1 + 1) y.instanceType meta =
      Except.ok ev)
    (hc2 : getRscDefault RscType.cpu env n1 y.instanceType meta = Except.ok cv2)
    (hm2 : getRscDefault RscType.memory env (n1 + 1) y.instanceType meta = Except.ok mv2)
    (he2 : getRscDefault RscType.ephemeralStorage env (n1 + 1 + 1) y.instanceType meta =
      Except.ok ev2) :
    (SetKubeletExtraConfigDefaults env n1
      ((SetKubeletExtraConfigDefaults env n0 y meta).1) meta).1 =
      (SetKubeletExtraConfigDefaults env n0 y meta).1 := by
  have hrun1 := kubelet_run_of_ok env n0 y meta cv mv ev hc1 hm1 he1
  have hrun2 := kubelet_run_of_ok env n1
    { y with kubeletExtraConfig := some (reservedStep "ephemeral-storage" ev
        (reservedStep "memory" mv (reservedStep "cpu" cv (y.kubeletExtraConfig.getD [])))) }
    meta cv2 mv2 ev2 hc2 hm2 he2
  rw [hrun1]
  dsimp only
  rw [hrun2]
  dsimp only
  simp only [Option.getD_some]
  rw [reservedChain_noop]

/-- **C3** — The node-group defaulting pass is idempotent: with fixed
cluster meta and fixed provider answers, running `SetNodeGroupDefaults`
a second time (from the provider-call counter where the first run
stopped) leaves the node group unchanged, and
`SetManagedNodeGroupDefaults` run twice equals itself run once. -/
theorem defaults_idempotent_claim :
    (∀ env ng meta n0,
      (∀ n m it, env.answers n it = env.answers m it) →
      (SetNodeGroupDefaults env (SetNodeGroupDefaults env n0 ng meta).2
        (SetNodeGroupDefaults env n0 ng meta).1 meta).1 =
        (SetNodeGroupDefaults env n0 ng meta).1) ∧
    (∀ g meta, SetManagedNodeGroupDefaults (SetManagedNodeGroupDefaults g meta) meta =
      SetManagedNodeGroupDefaults g meta) := by
  constructor
  · intro env ng meta n0 hfix
    have hPkub : (setNodeGroupFieldDefaults ng meta).kubeletExtraConfig =
        some (ng.kubeletExtraConfig.getD []) := by rw [fieldDefaults_eq]
    have hP2base : setNodeGroupFieldDefaults (setNodeGroupFieldDefaults ng meta) meta =
        setNodeGroupFieldDefaults ng meta :=
      fieldDefaults_after ng meta ((setNodeGroupFieldDefaults ng meta).kubeletExtraConfig)
        (by rw [hPkub]; rfl)
    rcases ha : env.answers n0 (setNodeGroupFieldDefaults ng meta).instanceType with e | info
    · have haE : ∀ k : Nat,
          env.answers k ((setNodeGroupFieldDefaults ng meta).instanceType) =
            Except.error e := fun k => by rw [hfix k n0]; exact ha
      have hrun1 := kubelet_run_of_err1 env n0 (setNodeGroupFieldDefaults ng meta) meta e
        (getRscDefault_err _ _ _ _ _ _ (haE n0))
      have hrun2 := kubelet_run_of_err1 env (n0 + 1) (setNodeGroupFieldDefaults ng meta) meta e
        (getRscDefault_err _ _ _ _ _ _ (haE (n0 + 1)))
      simp only [SetNodeGroupDefaults_eq, hrun1, hP2base, hrun2]
    · have haN : ∀ k : Nat,
          env.answers k ((setNodeGroupFieldDefaults ng meta).instanceType) =
            Except.ok info := fun k => by rw [hfix k n0]; exact ha
      rcases ht : cpuAllocations info.defaultVCpus with _ | cv
      · have hrun1 := kubelet_run_of_err1 env n0 (setNodeGroupFieldDefaults ng meta) meta _
          (getRscDefault_cpu_err env n0 _ meta info (haN n0) ht)
        have hrun2 := kubelet_run_of_err1 env (n0 + 1) (setNodeGroupFieldDefaults ng meta) meta _
          (getRscDefault_cpu_err env (n0 + 1) _ meta info (haN (n0 + 1)) ht)
        simp only [SetNodeGroupDefaults_eq, hrun1, hP2base, hrun2]
      · have hc1 := getRscDefault_cpu_ok env n0 _ meta info cv (haN n0) ht
        obtain ⟨mv, hm1⟩ : ∃ s, getRscDefault RscType.memory env (n0 + 1)
            ((setNodeGroupFieldDefaults ng meta).instanceType) meta = Except.ok s :=
          ⟨_, getRscDefault_memory_ok env (n0 + 1) _ meta info (haN (n0 + 1))⟩
        obtain ⟨ev, he1⟩ : ∃ s, getRscDefault RscType.ephemeralStorage env (n0 + 1 + 1)
            ((setNodeGroupFieldDefaults ng meta).instanceType) meta = Except.ok s :=
          ⟨_, getRscDefault_ephemeral_ok env (n0 + 1 + 1) _ meta info (haN (n0 + 1 + 1))⟩
        have hc2 := getRscDefault_cpu_ok env (n0 + 1 + 1 + 1) _ meta info cv
          (haN (n0 + 1 + 1 + 1)) ht
        obtain ⟨mv2, hm2⟩ : ∃ s, getRscDefault RscType.memory env (n0 + 1 + 1 + 1 + 1)
            ((setNodeGroupFieldDefaults ng meta).instanceType) meta = Except.ok s :=
          ⟨_, getRscDefault_memory_ok env (n0 + 1 + 1 + 1 + 1) _ meta info
            (haN (n0 + 1 + 1 + 1 + 1))⟩
        obtain ⟨ev2, he2⟩ : ∃ s, getRscDefault RscType.ephemeralStorage env
            (n0 + 1 + 1 + 1 + 1 + 1) ((setNodeGroupFieldDefaults ng meta).instanceType) meta =
            Except.ok s :=
          ⟨_, getRscDefault_ephemeral_ok env (n0 + 1 + 1 + 1 + 1 + 1) _ meta info
            (haN (n0 + 1 + 1 + 1 + 1 + 1))⟩
        have hrun1 := kubelet_run_of_ok env n0 (setNodeGroupFieldDefaults ng meta) meta
          cv mv ev hc1 hm1 he1
        have hP2succ := fieldDefaults_after ng meta
          (some (reservedStep "ephemeral-storage" ev (reservedStep "memory" mv
            (reservedStep "cpu" cv
              ((setNodeGroupFieldDefaults ng meta).kubeletExtraConfig.getD []))))) rfl
        have htwice := kubelet_run_twice_ok env n0 (n0 + 1 + 1 + 1)
          (setNodeGroupFieldDefaults ng meta) meta cv mv ev cv mv2 ev2
          hc1 hm1 he1 hc2 hm2 he2
        simp only [SetNodeGroupDefaults_eq]
        simp only [hrun1] at htwice ⊢
        rw [hP2succ]
        exact htwice
  · intro g meta
    exact SetManagedNodeGroupDefaults_idem g meta

/-- Witness for C3 at concrete inputs: a constant provider, a fresh
unmanaged node group and a fresh managed node group. -/
theorem defaults_idempotent_claim_witness :
    (SetNodeGroupDefaults ⟨fun _ _ => Except.ok ⟨2, 4096, false, 0⟩⟩
      (SetNodeGroupDefaults ⟨fun _ _ => Except.ok ⟨2, 4096, false, 0⟩⟩ 0
        ⟨"n", "", "", none, none, none, none, none, none, none⟩ ⟨"c", "r"⟩).2
      (SetNodeGroupDefaults ⟨fun _ _ => Except.ok ⟨2, 4096, false, 0⟩⟩ 0
        ⟨"n", "", "", none, none, none, none, none, none, none⟩ ⟨"c", "r"⟩).1 ⟨"c", "r"⟩).1 =
      (SetNodeGroupDefaults ⟨fun _ _ => Except.ok ⟨2, 4096, false, 0⟩⟩ 0
        ⟨"n", "", "", none, none, none, none, none, none, none⟩ ⟨"c", "r"⟩).1 ∧
    SetManagedNodeGroupDefaults
      (SetManagedNodeGroupDefaults ⟨"n", "", "", none, none, none, none, none, some []⟩
        ⟨"c", "r"⟩) ⟨"c", "r"⟩ =
      SetManagedNodeGroupDefaults ⟨"n", "", "", none, none, none, none, none, some []⟩
        ⟨"c", "r"⟩ :=
  ⟨defaults_idempotent_claim.1 ⟨fun _ _ => Except.ok ⟨2, 4096, false, 0⟩⟩
      ⟨"n", "", "", none, none, none, none, none, none, none⟩ ⟨"c", "r"⟩ 0
      (fun _ _ _ => rfl),
   defaults_idempotent_claim.2 ⟨"n", "", "", none, none, none, none, none, some []⟩
      ⟨"c", "r"⟩⟩

end Eksctl
